import Mathlib

/-!
Shallow embedding of `src/StackedAutoencoders.py` (classes `UnitAutoencoder`,
`StackedAutoencoders`, `StackBuilder`).

The repository builds TensorFlow-1 computation graphs.  We embed graph
construction as values of a symbolic tensor-expression type `TExpr` (batched
tensors) and `SExpr` (scalar loss tensors), mirroring the exact sequence of
framework calls in the source.  Numeric semantics is given over matrices of
rationals; framework-supplied randomness (Gaussian noise draws, dropout masks,
variable initializers, the optimizer's trajectory) and the real-valued
activation / regularizer / cross-entropy functions are oracles carried in an
environment, so every theorem quantifies over them.

TF-1 session semantics: a `tf.Session` holds the variable values; a freshly
opened session has every variable *uninitialized* and running any op that
reads an uninitialized variable raises `FailedPreconditionError`.  Variables
acquire values only through `init.run()` or `saver.restore`.  We model a
session's variable state as `String → Option PVal` (`none` = uninitialized)
and a checkpoint file as a total map `String → PVal`.
-/

/-- A batched tensor value: a matrix of integer-valued entries, rows are
examples (float tensors are embedded at integer-representable points; the
loss values keep full rational precision). -/
abbrev Mat : Type := List (List ℤ)

/-- Number of rows, mirroring numpy `shape[0]`. -/
def matRows (m : Mat) : Nat := m.length

/-- Number of columns (feature width), mirroring numpy `shape[1]`. -/
def matWidth (m : Mat) : Nat := (m.headD []).length

/-- A stored parameter value: either a 2-D kernel or a 1-D bias vector. -/
inductive PVal where
  | mat (m : List (List ℤ))
  | vec (v : List ℤ)
deriving DecidableEq

/-- Shape of a stored parameter value, as a list of dimensions. -/
def PVal.shape : PVal → List Nat
  | .mat m => [m.length, (m.headD []).length]
  | .vec v => [v.length]

/-- Errors the Python code (or the framework) can raise. -/
inductive PyErr where
  | assertionError (msg : String)
  | keyError (key : String)
  | valueError (msg : String)
  | failedPrecondition (varName : String)
  | typeError (what : String)
  | notFound (path : String)
  | unpackError
deriving DecidableEq

deriving instance DecidableEq for Except

/-- Dot product of two vectors. -/
def dotZ (u v : List ℤ) : ℤ := ((u.zip v).map fun p => p.1 * p.2).sum

/-- Matrix product, `tf.matmul`. -/
def matMul (a b : Mat) : Mat := a.map fun row => b.transpose.map fun col => dotZ row col

/-- Broadcast addition of a bias row vector to every row, `m + b`. -/
def rowAddVec (m : Mat) (b : List ℤ) : Mat :=
  m.map fun row => (row.zip b).map fun p => p.1 + p.2

/-- Elementwise matrix addition (used for the additive Gaussian noise). -/
def matAdd (a b : Mat) : Mat :=
  (a.zip b).map fun p => (p.1.zip p.2).map fun q => q.1 + q.2

/-- Squared entry differences of two same-shaped matrices, flattened. -/
def sqDiffs (a b : Mat) : List ℤ :=
  ((a.zip b).map fun p => (p.1.zip p.2).map fun q => (q.1 - q.2) ^ 2).flatten

/-- Mean of the squared entry differences: `tf.reduce_mean(tf.square(a - b))`. -/
def mseQ (a b : Mat) : ℚ := ((sqDiffs a b).sum : ℚ) / ((sqDiffs a b).length : ℚ)

/-- Symbolic batched-tensor expressions, one constructor per framework call
made by the source when wiring the graph.  `placeholder` carries the static
column width when the source declares one. -/
inductive TExpr where
  | placeholder (nm : String) (cols : Option Nat)
  | gaussianNoiseCond (stddev : ℚ) (x : TExpr)
  | dropout (rate : ℚ) (x : TExpr)
  | dense (layer : String) (nUnits : Nat) (activation : Option String) (x : TExpr)
  | matmulBias (wName bName : String) (x : TExpr)
  | appAct (activation : String) (x : TExpr)
deriving DecidableEq

/-- Symbolic scalar (loss) expressions. -/
inductive SExpr where
  | meanSqDiff (a b : TExpr)
  | regApp (reg : String) (varName : String)
  | addN (ts : List SExpr)
  | xentMean (labels : TExpr) (logits : TExpr)

/-- Oracles for everything the framework supplies: activation functions
(applied row-wise), the Gaussian-noise draw, the training-mode dropout
transform, regularizer values and the mean sparse-softmax cross-entropy. -/
structure SemEnv where
  actSem : String → List ℤ → List ℤ
  noiseFn : ℚ → Mat → Mat
  dropFn : ℚ → Mat → Mat
  regSem : String → PVal → ℚ
  xentSem : Mat → Mat → ℚ

/-- A full evaluation environment: the semantic oracles together with the
`feed_dict` contents, the session's variable state and the value of the
`training` placeholder. -/
structure EvalEnv extends SemEnv where
  feeds : String → Option Mat
  vars : String → Option PVal
  training : Bool

/-- Read a kernel variable from the session; uninitialized variables raise
`FailedPreconditionError` as in TF-1. -/
def getVarMat (env : EvalEnv) (n : String) : Except PyErr Mat :=
  match env.vars n with
  | some (PVal.mat m) => .ok m
  | some (PVal.vec _) => .error (.typeError n)
  | none => .error (.failedPrecondition n)

/-- Read a bias variable from the session. -/
def getVarVec (env : EvalEnv) (n : String) : Except PyErr (List ℤ) :=
  match env.vars n with
  | some (PVal.vec v) => .ok v
  | some (PVal.mat _) => .error (.typeError n)
  | none => .error (.failedPrecondition n)

/-- Optionally apply a (named) activation row-wise. -/
def applyActOpt (env : EvalEnv) (a : Option String) (m : Mat) : Mat :=
  match a with
  | none => m
  | some f => m.map (env.actSem f)

/-- Evaluation of a batched tensor expression in a session environment.

`gaussianNoiseCond` is `tf.cond(training, lambda: x + random_normal(...),
lambda: x)`; `dropout` is `tf.layers.dropout(x, rate, training=training)`,
which is the identity outside training mode.  `dense layer` reads the
framework-created variables `layer/kernel:0` and `layer/bias:0`. -/
def evalT (env : EvalEnv) : TExpr → Except PyErr Mat
  | .placeholder nm _ =>
    match env.feeds nm with
    | some m => .ok m
    | none => .error (.valueError ("placeholder " ++ nm ++ " not fed"))
  | .gaussianNoiseCond stddev x => do
    let v ← evalT env x
    return (if env.training then matAdd v (env.noiseFn stddev v) else v)
  | .dropout rate x => do
    let v ← evalT env x
    return (if env.training then env.dropFn rate v else v)
  | .dense layer _ activation x => do
    let v ← evalT env x
    let w ← getVarMat env (layer ++ "/kernel:0")
    let b ← getVarVec env (layer ++ "/bias:0")
    return applyActOpt env activation (rowAddVec (matMul v w) b)
  | .matmulBias wName bName x => do
    let v ← evalT env x
    let w ← getVarMat env wName
    let b ← getVarVec env bName
    return rowAddVec (matMul v w) b
  | .appAct a x => do
    let v ← evalT env x
    return v.map (env.actSem a)

mutual

/-- Evaluation of a scalar (loss) expression. -/
def evalS (env : EvalEnv) : SExpr → Except PyErr ℚ
  | .meanSqDiff a b => do
    let va ← evalT env a
    let vb ← evalT env b
    return mseQ va vb
  | .regApp reg varName =>
    match env.vars varName with
    | some v => .ok (env.regSem reg v)
    | none => .error (.failedPrecondition varName)
  | .addN ts => do
    let vs ← evalSList env ts
    return vs.sum
  | .xentMean labels logits => do
    let yv ← evalT env labels
    let lv ← evalT env logits
    return env.xentSem yv lv

/-- Evaluation of a list of scalar expressions (the `tf.add_n` arguments). -/
def evalSList (env : EvalEnv) : List SExpr → Except PyErr (List ℚ)
  | [] => .ok []
  | t :: ts => do
    let v ← evalS env t
    let vs ← evalSList env ts
    return (v :: vs)

end

/-- A tensor handed to `sess.run`: scalar or batched. -/
inductive Fetchable where
  | scalarF (e : SExpr)
  | tensorF (e : TExpr)

/-- A value returned by `sess.run`. -/
inductive RVal where
  | scalarV (q : ℚ)
  | matV (m : Mat)
deriving DecidableEq

/-- Evaluate one fetch. -/
def runFetch (env : EvalEnv) : Fetchable → Except PyErr RVal
  | .scalarF e => do let q ← evalS env e; return RVal.scalarV q
  | .tensorF e => do let m ← evalT env e; return RVal.matV m

/-- Model of `sess.run(vars_to_eval, feed_dict)`: evaluate every fetch. -/
def sessRun (env : EvalEnv) : List Fetchable → Except PyErr (List RVal)
  | [] => .ok []
  | f :: rest => do
    let v ← runFetch env f
    let vs ← sessRun env rest
    return v :: vs

/-! ## UnitAutoencoder -/

/-- Construction-time configuration of a `UnitAutoencoder` (the ctor
arguments that shape the graph).  Activations and the regularizer are the
names of opaque framework functions; `none` means the Python `None`. -/
structure UnitCfg where
  name : String
  n_inputs : Nat
  n_neurons : Nat
  noise_stddev : Option ℚ
  input_dropout_rate : Option ℚ
  hidden_dropout_rate : Option ℚ
  hidden_activation : Option String
  output_activation : Option String
  regularizer : Option String

/-- The tensors and bookkeeping the `UnitAutoencoder.__init__` graph block
creates (source lines 77-99). -/
structure UnitGraph where
  X : TExpr
  x_noisy : TExpr
  hidden : TExpr
  outputs : TExpr
  reg_losses : List SExpr
  reconstruction_loss : SExpr
  loss : SExpr

/-- Trainable variables of the unit graph, in creation order: the two
`tf.layers.dense` calls register `{layer}/kernel:0` and `{layer}/bias:0`
for layers `{name}_hidden` and `{name}_outputs`. -/
def unitTVarNames (c : UnitCfg) : List String :=
  [c.name ++ "_hidden/kernel:0", c.name ++ "_hidden/bias:0",
   c.name ++ "_outputs/kernel:0", c.name ++ "_outputs/bias:0"]

/-- Graph construction of `UnitAutoencoder.__init__`, source lines 77-99:

* `X = tf.placeholder(tf.float32, shape=[None, n_inputs])`;
* if `noise_stddev is not None`: `X_noisy = tf.cond(training, X + noise, X)`;
  elif `input_dropout_rate is not None`: `X_noisy = dropout(X, rate)`;
  else `X_noisy = X`;
* `dense_hidden = tf.layers.dense(X_noisy, n_neurons, hidden_activation,
  kernel_regularizer=regularizer, name="{name}_hidden")`, optionally followed
  by a dropout with `hidden_dropout_rate`;
* `outputs = tf.layers.dense(hidden, n_inputs, output_activation,
  kernel_regularizer=regularizer, name="{name}_outputs")`;
* `reg_losses = tf.get_collection(REGULARIZATION_LOSSES)` (the kernel
  regularizer terms of the two dense layers, in creation order);
* `reconstruction_loss = tf.reduce_mean(tf.square(outputs - X))`;
* `loss = tf.add_n([reconstruction_loss] + reg_losses)`. -/
def unitGraph (c : UnitCfg) : UnitGraph :=
  let X := TExpr.placeholder "X" (some c.n_inputs)
  let x_noisy :=
    match c.noise_stddev with
    | some stddev => TExpr.gaussianNoiseCond stddev X
    | none =>
      match c.input_dropout_rate with
      | some rate => TExpr.dropout rate X
      | none => X
  let dense_hidden := TExpr.dense (c.name ++ "_hidden") c.n_neurons c.hidden_activation x_noisy
  let hidden :=
    match c.hidden_dropout_rate with
    | none => dense_hidden
    | some rate => TExpr.dropout rate dense_hidden
  let outputs := TExpr.dense (c.name ++ "_outputs") c.n_inputs c.output_activation hidden
  let reg_losses :=
    match c.regularizer with
    | some r => [SExpr.regApp r (c.name ++ "_hidden/kernel:0"),
                 SExpr.regApp r (c.name ++ "_outputs/kernel:0")]
    | none => []
  let reconstruction_loss := SExpr.meanSqDiff outputs X
  { X := X, x_noisy := x_noisy, hidden := hidden, outputs := outputs,
    reg_losses := reg_losses,
    reconstruction_loss := reconstruction_loss,
    loss := SExpr.addN (reconstruction_loss :: reg_losses) }

/-- The `self.params` dictionary: variable name to value. -/
abbrev Params : Type := List (String × PVal)

/-- A checkpoint file: a value for every variable name it may be asked for. -/
abbrev Checkpoint : Type := String → PVal

/-- A directory of checkpoint files, keyed by model path.  `none` models
`not os.path.exists("{path}.meta")`. -/
abbrev FS : Type := String → Option Checkpoint

/-- Write one checkpoint (`saver.save(sess, model_path)`). -/
def fsSave (fs : FS) (path : String) (cp : Checkpoint) : FS :=
  fun p => if p = path then some cp else fs p

/-- The dict comprehension
`dict([(var.name, var.eval()) for var in TRAINABLE_VARIABLES])`
after `saver.restore` set every variable from the checkpoint. -/
def paramsFromCheckpoint (names : List String) (cp : Checkpoint) : Params :=
  names.map fun n => (n, cp n)

/-- Session variable state after `saver.restore(sess, model_path)`:
exactly the graph's variables hold their checkpoint values. -/
def cpVars (names : List String) (cp : Checkpoint) : String → Option PVal :=
  fun n => if n ∈ names then some (cp n) else none

/-- Python truthiness of `self.params` (`None` and the empty dict are falsy). -/
def paramsTruthy : Option Params → Prop
  | none => False
  | some ps => ps ≠ []

instance : DecidablePred paramsTruthy := by
  intro p
  cases p with
  | none => exact isFalse (fun h => h)
  | some ps => exact inferInstanceAs (Decidable (ps ≠ []))

/-- Runtime state of a `UnitAutoencoder` object: its configuration and the
`self.params` dictionary (`None` until `fit` or a restore sets it). -/
structure UnitSt where
  cfg : UnitCfg
  params : Option Params

/-- Fresh object right after `__init__` (`self.params = None`, line 126). -/
def UnitSt.mk0 (c : UnitCfg) : UnitSt := { cfg := c, params := none }

namespace UnitAutoencoder

/-- Look up a key in `self.params`, raising `KeyError` like a Python dict. -/
def paramsGet (u : UnitSt) (key : String) : Except PyErr PVal :=
  match u.params with
  | none => .error (.assertionError "Invalid self.params")
  | some ps =>
    match ps.lookup key with
    | some v => .ok v
    | none => .error (.keyError key)

/-- `hidden_weights` (lines 217-228): asserts `self.params is not None`,
then `self.params["{name}_hidden/kernel:0"]`. -/
def hidden_weights (u : UnitSt) : Except PyErr PVal :=
  paramsGet u (u.cfg.name ++ "_hidden/kernel:0")

/-- `hidden_biases` (lines 230-241): `self.params["{name}_hidden/bias:0"]`. -/
def hidden_biases (u : UnitSt) : Except PyErr PVal :=
  paramsGet u (u.cfg.name ++ "_hidden/bias:0")

/-- `output_weights` (lines 243-248): looks up `"{name}_output/kernel:0"`
(note: `_output`, not `_outputs`, exactly as in the source). -/
def output_weights (u : UnitSt) : Except PyErr PVal :=
  paramsGet u (u.cfg.name ++ "_output/kernel:0")

/-- `output_biases` (lines 250-255): looks up `"{name}_output/bias:0"`. -/
def output_biases (u : UnitSt) : Except PyErr PVal :=
  paramsGet u (u.cfg.name ++ "_output/bias:0")

/-- `restore` (lines 257-273): open a session on the unit's graph, restore
every variable from the model file, and rebuild `self.params` from the
trainable variables (a missing file raises the framework's not-found
error).  A previously set `self.params` only triggers a printed warning and
is replaced. -/
def restore (u : UnitSt) (fs : FS) (model_path : String) : Except PyErr UnitSt :=
  match fs model_path with
  | none => .error (.notFound model_path)
  | some cp =>
    .ok { u with params := some (paramsFromCheckpoint (unitTVarNames u.cfg) cp) }

/-- Map a `varlist` entry to the tensor it fetches; `none` for an
unrecognized name.  This is the shared if/elif chain of `eval` (295-304)
and `restore_and_eval` (329-337). -/
def fetchOfName (g : UnitGraph) (v : String) : Option Fetchable :=
  if v = "loss" then some (.scalarF g.loss)
  else if v = "reconstruction_loss" then some (.scalarF g.reconstruction_loss)
  else if v = "hidden_outputs" then some (.tensorF g.hidden)
  else if v = "outputs" then some (.tensorF g.outputs)
  else none

/-- The `vars_to_eval` loop of `eval` (lines 292-304): the trailing `else`
raises `ValueError` at the first unrecognized name. -/
def fetchesStrict (g : UnitGraph) : List String → Except PyErr (List Fetchable)
  | [] => .ok []
  | v :: rest =>
    match fetchOfName g v with
    | some f => do
      let fs ← fetchesStrict g rest
      return f :: fs
    | none => .error (.valueError ("Unrecognized variable " ++ v ++ " to evaluate"))

/-- The `vars_to_eval` loop of `restore_and_eval` (lines 327-337): no
trailing `else`, so unrecognized names are silently skipped. -/
def fetchesSkip (g : UnitGraph) (varlist : List String) : List Fetchable :=
  varlist.filterMap (fetchOfName g)

/-- The evaluation environment of a `sess.run(vars_to_eval,
feed_dict={self.X: X})` call: only `X` is fed, `training` keeps its
placeholder default `False`, and the session's variables are `vs`. -/
def runEnv (senv : SemEnv) (X : Mat) (vs : String → Option PVal) : EvalEnv :=
  { toSemEnv := senv,
    feeds := fun n => if n = "X" then some X else none,
    vars := vs,
    training := false }

/-- `eval` (lines 275-305): assert the truthiness of `self.params`, open a
NEW session on the graph, build `vars_to_eval` (raising `ValueError` on an
unrecognized name), and `sess.run`.  The fresh session never runs
`self.init` nor `saver.restore`, so all of its variables are
uninitialized. -/
def eval (u : UnitSt) (senv : SemEnv) (X : Mat) (varlist : List String) :
    Except PyErr (List RVal) := do
  if paramsTruthy u.params then
    let g := unitGraph u.cfg
    let fetches ← fetchesStrict g varlist
    sessRun (runEnv senv X (fun _ => none)) fetches
  else
    .error (.assertionError "Invalid self.params")

/-- `restore_and_eval` (lines 307-338): open a session, `saver.restore`
from the model file, rebuild `self.params`, build `vars_to_eval` (silently
skipping unrecognized names) and `sess.run` in the restored session.
Returns the updated object together with the value list. -/
def restore_and_eval (u : UnitSt) (senv : SemEnv) (X : Mat) (fs : FS)
    (model_path : String) (varlist : List String) :
    Except PyErr (UnitSt × List RVal) := do
  match fs model_path with
  | none => .error (.notFound model_path)
  | some cp =>
    let g := unitGraph u.cfg
    let names := unitTVarNames u.cfg
    let u' := { u with params := some (paramsFromCheckpoint names cp) }
    let vals ← sessRun (runEnv senv X (cpVars names cp)) (fetchesSkip g varlist)
    return (u', vals)

end UnitAutoencoder

/-! ## The fit loop

`UnitAutoencoder.fit` (lines 156-215) and `StackedAutoencoders.fit`
(lines 584-649) share the same epoch/batch skeleton; only the feeds and the
leading assertions differ.  The optimizer's effect on the session variables
and the loss measured on the validation set are framework-supplied, so they
enter as oracles. -/

/-- Oracles for one training run: the loss on the validation set measured at
a checkpoint step, whether the stop file exists when checked at that step,
the session's trainable-variable values when `saver.save` runs at that step,
and their values when the run ends (for `self.params`).  A separate
`initVars` oracle gives the values `save_untrained_model` writes. -/
structure FitEnv where
  lossAt : Nat → ℚ
  stopAt : Nat → Bool
  varsAt : Nat → Checkpoint
  finalVars : Checkpoint
  initVars : Checkpoint

/-- Loop state of `fit`: `best_loss_on_valid_set`, `model_step`, the
checkpoint most recently written by `saver.save` (none if never), and the
`stop` flag. -/
structure FitAcc where
  best : ℚ
  model_step : Int
  savedCp : Option Checkpoint
  stop : Bool

/-- Initial loop state (lines 180-182): `best_loss_on_valid_set = 100000`,
`model_step = -1`, `stop = False`. -/
def fitAcc0 : FitAcc := { best := 100000, model_step := -1, savedCp := none, stop := false }

/-- Body of one batch iteration (lines 187-206) at global step `step`.
When `step % checkpoint_steps == 0`: read the validation loss, decide
`model_to_save = (not save_best_only) or (loss < best)` with the OLD best,
update the best, save the model (recording `model_step`) if due, and set
`stop` if the stop file exists. -/
def fitStep (fe : FitEnv) (save_best_only : Bool) (checkpoint_steps : Nat)
    (step : Nat) (acc : FitAcc) : FitAcc :=
  if step % checkpoint_steps = 0 then
    let lossv := fe.lossAt step
    let model_to_save := save_best_only = false ∨ lossv < acc.best
    let best' := if lossv < acc.best then lossv else acc.best
    let acc' :=
      if model_to_save then
        { acc with best := best', savedCp := some (fe.varsAt step), model_step := (step : Int) }
      else
        { acc with best := best' }
    if fe.stopAt step then { acc' with stop := true } else acc'
  else acc

/-- One epoch (lines 183-209): if a previous epoch raised the stop flag the
`break` has already ended the loop; otherwise run every batch of this
epoch.  The stop flag is only consulted after the inner loop. -/
def fitEpoch (fe : FitEnv) (save_best_only : Bool) (checkpoint_steps : Nat)
    (n_batches : Nat) (epoch : Nat) (acc : FitAcc) : FitAcc :=
  if acc.stop then acc
  else
    (List.range n_batches).foldl
      (fun a batch_idx => fitStep fe save_best_only checkpoint_steps (epoch * n_batches + batch_idx) a)
      acc

/-- The full double loop of `fit`.  `n_batches = len(X_train) // batch_size`
is recomputed each epoch from unchanged values, hence constant. -/
def fitCore (fe : FitEnv) (save_best_only : Bool) (checkpoint_steps : Nat)
    (n_epochs n_batches : Nat) : FitAcc :=
  (List.range n_epochs).foldl
    (fun a epoch => fitEpoch fe save_best_only checkpoint_steps n_batches epoch a) fitAcc0

/-- `UnitAutoencoder.fit` (lines 156-215).  Asserts the input width, runs
the loop, sets `self.params` from the session's final variable values,
asserts `model_step >= 0` (the `"Invalid model step"` assertion) and
returns the updated object, the file system after the `saver.save` calls,
`model_step` and `all_steps = n_epochs * n_batches`. -/
def UnitAutoencoder.fit (u : UnitSt) (fe : FitEnv) (X_train _X_valid : Mat)
    (n_epochs : Nat) (model_path : String) (save_best_only : Bool)
    (batch_size : Option Nat) (checkpoint_steps : Nat) (fs : FS) :
    Except PyErr (UnitSt × FS × Int × Nat) :=
  if u.cfg.n_inputs = matWidth X_train then
    let bs := batch_size.getD X_train.length
    let n_batches := X_train.length / bs
    let acc := fitCore fe save_best_only checkpoint_steps n_epochs n_batches
    let fs' := match acc.savedCp with
               | some cp => fsSave fs model_path cp
               | none => fs
    let u' := { u with params := some (paramsFromCheckpoint (unitTVarNames u.cfg) fe.finalVars) }
    if acc.model_step ≥ 0 then
      .ok (u', fs', acc.model_step, n_epochs * n_batches)
    else
      .error (.assertionError "Invalid model step")
  else
    .error (.assertionError "Invalid input shape")

/-- `save_untrained_model` (lines 146-154): initialize the variables and
save them; `self.params` stays `None` (only `initial_params` is set). -/
def UnitAutoencoder.save_untrained_model (u : UnitSt) (fe : FitEnv)
    (model_path : String) (fs : FS) : UnitSt × FS :=
  (u, fsSave fs model_path fe.initVars)

/-! ## StackedAutoencoders -/

/-- How a stack variable is initialized: by a framework initializer of the
given static shape (`tf.get_variable`/dense layers) or from a concrete
array (`tf.Variable(initial_value)`). -/
inductive VInit where
  | fromInitializer (shape : List Nat)
  | fromArray (v : PVal)

/-- Runtime state of a `StackedAutoencoders` object (lines 350-383).
`tvars` is the graph's trainable-variable list in creation order with each
variable's initial value; `graphInit` records whether `self.graph` has been
created; `trainingOpSet` whether `finalize` ran. -/
structure StackSt where
  name : String
  stacked_units : List UnitSt
  graphInit : Bool
  tvars : List (String × VInit)
  X : Option TExpr
  y : Option TExpr
  hidden : List TExpr
  encoders : List TExpr
  decoders : List TExpr
  outputs : Option TExpr
  loss : Option SExpr
  trainingOpSet : Bool

/-- Fresh stack right after `__init__`. -/
def StackSt.mk0 (name : String) : StackSt :=
  { name := name, stacked_units := [], graphInit := false, tvars := [],
    X := none, y := none, hidden := [], encoders := [], decoders := [],
    outputs := none, loss := none, trainingOpSet := false }

namespace StackedAutoencoders

/-- `_add_hidden_layer` (lines 385-418): under `tf.name_scope(layer_name)`,
optionally drop out the input, create `weights = tf.Variable(
unit.hidden_weights())` and `biases = tf.Variable(unit.hidden_biases())`
(named `layer_name/weights:0` and `layer_name/biases:0`), assert their
shapes, form `matmul(input, weights) + biases`, apply the unit's
`hidden_activation` if it is not `None`, optionally drop out the result,
and compute `regularizer(weights)` if a regularizer is given.
Returns the output tensor, the optional regularization loss, and the newly
created variables. -/
def add_hidden_layer (u : UnitSt) (layer_name : String)
    (regularizer : Option String)
    (input_dropout_rate hidden_dropout_rate : Option ℚ)
    (input_tensor : TExpr) :
    Except PyErr (TExpr × Option SExpr × List (String × VInit)) := do
  if paramsTruthy u.params then
    let input_drop :=
      match input_dropout_rate with
      | none => input_tensor
      | some rate => TExpr.dropout rate input_tensor
    let w ← UnitAutoencoder.hidden_weights u
    let wName := layer_name ++ "/weights:0"
    if w.shape = [u.cfg.n_inputs, u.cfg.n_neurons] then
      let b ← UnitAutoencoder.hidden_biases u
      let bName := layer_name ++ "/biases:0"
      if b.shape = [u.cfg.n_neurons] then
        let pre_activations := TExpr.matmulBias wName bName input_drop
        let hidden_outputs :=
          match u.cfg.hidden_activation with
          | some a => TExpr.appAct a pre_activations
          | none => pre_activations
        let hidden_drop :=
          match hidden_dropout_rate with
          | none => hidden_outputs
          | some rate => TExpr.dropout rate hidden_outputs
        let reg_loss := regularizer.map fun r => SExpr.regApp r wName
        return (hidden_drop, reg_loss, [(wName, .fromArray w), (bName, .fromArray b)])
      else
        .error (.assertionError "Wrong assumption about bias's shape")
    else
      .error (.assertionError "Wrong assumption about weight's shape")
  else
    .error (.assertionError "Invalid unit.params")

/-- `_add_output_layer` (lines 420-443): identical wiring but reading the
unit's OUTPUT layer parameters through `output_weights`/`output_biases`
and applying `output_activation`. -/
def add_output_layer (u : UnitSt) (layer_name : String)
    (regularizer : Option String)
    (input_dropout_rate output_dropout_rate : Option ℚ)
    (input_tensor : TExpr) :
    Except PyErr (TExpr × Option SExpr × List (String × VInit)) := do
  if paramsTruthy u.params then
    let input_drop :=
      match input_dropout_rate with
      | none => input_tensor
      | some rate => TExpr.dropout rate input_tensor
    let w ← UnitAutoencoder.output_weights u
    let wName := layer_name ++ "/weights:0"
    if w.shape = [u.cfg.n_inputs, u.cfg.n_neurons] then
      let b ← UnitAutoencoder.output_biases u
      let bName := layer_name ++ "/biases:0"
      if b.shape = [u.cfg.n_neurons] then
        let pre_activations := TExpr.matmulBias wName bName input_drop
        let outputs :=
          match u.cfg.output_activation with
          | some a => TExpr.appAct a pre_activations
          | none => pre_activations
        let outputs_drop :=
          match output_dropout_rate with
          | none => outputs
          | some rate => TExpr.dropout rate outputs
        let reg_loss := regularizer.map fun r => SExpr.regApp r wName
        return (outputs_drop, reg_loss, [(wName, .fromArray w), (bName, .fromArray b)])
      else
        .error (.assertionError "Wrong assumption about bias's shape")
    else
      .error (.assertionError "Wrong assumption about weight's shape")
  else
    .error (.assertionError "Invalid unit.params")

/-- Fold a new regularization loss into `self.loss`
(`tf.add_n([self.loss, reg_loss]) if self.loss is not None else reg_loss`). -/
def foldLoss (cur : Option SExpr) (new : Option SExpr) : Option SExpr :=
  match new with
  | none => cur
  | some rl =>
    match cur with
    | some l => some (SExpr.addN [l, rl])
    | none => some rl

/-- `stack_encoder` (lines 445-478): create the graph if needed; if no
hidden layer has been stacked yet, create the `X`/`y`/`training`
placeholders and use `X` as the input tensor, otherwise use the output of
the last stacked hidden layer; call `_add_hidden_layer`; append the result
to `hidden`, `encoders` and `stacked_units`; fold the regularization loss
into `self.loss`.  Note the Python defaults are
`input_dropout_rate = 0, hidden_dropout_rate = 0` (not `None`). -/
def stack_encoder (st : StackSt) (u : UnitSt) (layer_name : String)
    (regularizer : Option String := none)
    (input_dropout_rate : Option ℚ := some 0)
    (hidden_dropout_rate : Option ℚ := some 0) :
    Except PyErr StackSt := do
  let stA :=
    match st.hidden.getLast? with
    | none =>
      { st with graphInit := true,
                X := some (TExpr.placeholder "X" (some u.cfg.n_inputs)),
                y := some (TExpr.placeholder "y" none) }
    | some _ => { st with graphInit := true }
  let input_tensor :=
    match st.hidden.getLast? with
    | none => TExpr.placeholder "X" (some u.cfg.n_inputs)
    | some t => t
  let (hidden, reg_loss, newVars) ←
    add_hidden_layer u layer_name regularizer input_dropout_rate hidden_dropout_rate input_tensor
  return { stA with
           hidden := stA.hidden ++ [hidden],
           encoders := stA.encoders ++ [hidden],
           stacked_units := stA.stacked_units ++ [u],
           tvars := stA.tvars ++ newVars,
           loss := foldLoss stA.loss reg_loss }

/-- `stack_decoder` (lines 480-502): assert a non-empty encoder stack, call
`_add_output_layer` on the last hidden output, fold the regularization
loss, and either install the reconstruction output layer (adding
`reduce_mean(square(outputs - X))` to the loss) or append another hidden
layer. -/
def stack_decoder (st : StackSt) (u : UnitSt) (layer_name : String)
    (is_reconstruction_layer : Bool := false)
    (regularizer : Option String := none)
    (input_dropout_rate : Option ℚ := some 0)
    (output_dropout_rate : Option ℚ := some 0) :
    Except PyErr StackSt := do
  let stA := { st with graphInit := true }
  match stA.hidden.getLast? with
  | none => .error (.assertionError "Empty encoder layers")
  | some input_tensor => do
    let (outputs, reg_loss, newVars) ←
      add_output_layer u layer_name regularizer input_dropout_rate output_dropout_rate input_tensor
    let st1 := { stA with tvars := stA.tvars ++ newVars, loss := foldLoss stA.loss reg_loss }
    if is_reconstruction_layer then
      match st1.X with
      | none => .error (.typeError "self.X")
      | some xE =>
        let reconstruction_loss := SExpr.meanSqDiff outputs xE
        return { st1 with outputs := some outputs,
                          loss := foldLoss st1.loss (some reconstruction_loss) }
    else
      return { st1 with hidden := st1.hidden ++ [outputs],
                        decoders := st1.decoders ++ [outputs] }

/-- Static column width of a stack tensor, mirroring `tensor.shape[1]`
(used by `stack_softmax_output_layer`).  A `matmulBias` node takes its
width from the kernel variable it reads. -/
def colsOf (tvars : List (String × VInit)) : TExpr → Option Nat
  | .placeholder _ cols => cols
  | .gaussianNoiseCond _ x => colsOf tvars x
  | .dropout _ x => colsOf tvars x
  | .dense _ nUnits _ _ => some nUnits
  | .appAct _ x => colsOf tvars x
  | .matmulBias wName _ _ =>
    match tvars.lookup wName with
    | some (.fromArray (PVal.mat m)) => some ((m.headD []).length)
    | some (.fromInitializer shape) => shape.get? 1
    | _ => none

/-- `stack_softmax_output_layer` (lines 504-537): assert non-empty hidden
layers and an existing graph; under `tf.variable_scope(layer_name)` create
`weights` of shape `(self.hidden[-1].shape[1], n_classes)` and `biases` of
shape `(n_classes,)`; set `self.outputs = matmul(self.hidden[-1], weights)
+ biases` (logits, no activation applied); add the mean sparse softmax
cross-entropy between `self.y` and the logits to `self.loss`, then the
kernel regularizer term on `weights` if one is given. -/
def stack_softmax_output_layer (st : StackSt) (layer_name : String)
    (n_classes : Nat) (kernel_regularizer : Option String := none) :
    Except PyErr StackSt := do
  match st.hidden.getLast? with
  | none => .error (.assertionError "Empty hidden layers")
  | some lastHidden =>
    if st.graphInit then
      match colsOf st.tvars lastHidden with
      | none => .error (.valueError "last hidden layer has unknown static width")
      | some w =>
        let wName := layer_name ++ "/weights:0"
        let bName := layer_name ++ "/biases:0"
        let outputs := TExpr.matmulBias wName bName lastHidden
        match st.y with
        | none => .error (.typeError "self.y")
        | some yE =>
          let entropy_loss := SExpr.xentMean yE outputs
          let loss1 :=
            match st.loss with
            | some l => SExpr.addN [l, entropy_loss]
            | none => entropy_loss
          let loss2 :=
            match kernel_regularizer with
            | some r => SExpr.addN [loss1, SExpr.regApp r wName]
            | none => loss1
          return { st with
                   tvars := st.tvars ++
                     [(wName, .fromInitializer [w, n_classes]),
                      (bName, .fromInitializer [n_classes])],
                   outputs := some outputs,
                   loss := some loss2 }
    else
      .error (.assertionError "Empty graph")

/-- `finalize` (lines 539-564): assert the graph and create the training op
from `self.loss` (the rest is summary/saver bookkeeping). -/
def finalize (st : StackSt) : Except PyErr StackSt :=
  if st.graphInit then
    match st.loss with
    | some _ => .ok { st with trainingOpSet := true }
    | none => .error (.typeError "self.loss")
  else
    .error (.assertionError "Empty graph")

/-- `restore` (lines 574-582): assert the graph, restore every variable of
the stack's graph from the model file, set `self.initial_params = {}` and
rebuild `self.params` as the dictionary of all trainable variables'
restored values.  The stack's params live outside `StackSt` in the source
object; we return them. -/
def restore (st : StackSt) (fs : FS) (model_path : String) :
    Except PyErr Params :=
  if st.graphInit then
    match fs model_path with
    | none => .error (.notFound model_path)
    | some cp => .ok (paramsFromCheckpoint (st.tvars.map Prod.fst) cp)
  else
    .error (.assertionError "Invalid graph")

/-- Static width of the stack's input placeholder, `self.X.shape[1]`. -/
def stackInputWidth (st : StackSt) : Option Nat :=
  match st.X with
  | some (TExpr.placeholder _ cols) => cols
  | _ => none

/-- `StackedAutoencoders.fit` (lines 584-649): assert `self.training_op`,
assert the input width, and run the same epoch/batch loop as
`UnitAutoencoder.fit`, ending with the same `"Invalid model step"`
assertion.  Returns the stack's new params, the file system, `model_step`
and `all_steps`. -/
def fit (st : StackSt) (fe : FitEnv) (X_train _X_valid _y_train _y_valid : Mat)
    (model_path : String) (save_best_only : Bool) (n_epochs : Nat)
    (batch_size : Option Nat) (checkpoint_steps : Nat) (fs : FS) :
    Except PyErr (Params × FS × Int × Nat) :=
  if st.trainingOpSet then
    if stackInputWidth st = some (matWidth X_train) then
      let bs := batch_size.getD X_train.length
      let n_batches := X_train.length / bs
      let acc := fitCore fe save_best_only checkpoint_steps n_epochs n_batches
      let fs' := match acc.savedCp with
                 | some cp => fsSave fs model_path cp
                 | none => fs
      let ps := paramsFromCheckpoint (st.tvars.map Prod.fst) fe.finalVars
      if acc.model_step ≥ 0 then
        .ok (ps, fs', acc.model_step, n_epochs * n_batches)
      else
        .error (.assertionError "Invalid model step")
    else
      .error (.assertionError "Invalid input shape")
  else
    .error (.assertionError "Invalid self.training_op")

end StackedAutoencoders

/-! ## StackBuilder: layer-wise pretraining loop -/

/-- The `StackBuilder` ctor fields that drive the pretraining loop of
`build_pretrained_stack` (lines 722-789). -/
structure BuilderCfg where
  name : String
  preceding_units : List UnitSt
  preceding_unit_model_paths : List String
  n_neurons_per_layer : List Nat
  unit_regularizer : List (Option String)
  unit_noise_stddev : List (Option ℚ)
  unit_input_dropout_rate : List (Option ℚ)
  unit_hidden_dropout_rate : List (Option ℚ)
  unit_hidden_activations : Option String
  unit_output_activations : Option String
  cache_dir : String

/-- `n_hidden_layers = len(n_neurons_per_layer) + len(preceding_units)`. -/
def BuilderCfg.nHiddenLayers (b : BuilderCfg) : Nat :=
  b.n_neurons_per_layer.length + b.preceding_units.length

/-- The assertions of `StackBuilder.__init__` (lines 758-774). -/
def BuilderCfg.wf (b : BuilderCfg) : Prop :=
  b.preceding_units.length = b.preceding_unit_model_paths.length ∧
  b.unit_regularizer.length = b.n_neurons_per_layer.length ∧
  b.unit_noise_stddev.length = b.n_neurons_per_layer.length ∧
  b.unit_input_dropout_rate.length = b.n_neurons_per_layer.length ∧
  b.unit_hidden_dropout_rate.length = b.n_neurons_per_layer.length ∧
  0 < b.nHiddenLayers

/-- Placeholder configuration (only used as a `getD` default behind a
length-checked index). -/
def UnitCfg.default0 : UnitCfg :=
  { name := "", n_inputs := 0, n_neurons := 0, noise_stddev := none,
    input_dropout_rate := none, hidden_dropout_rate := none,
    hidden_activation := none, output_activation := none, regularizer := none }

/-- Configuration of the unit built for hidden layer `i` (lines 829-847):
`n_inputs` is the CURRENT data's feature width; the remaining
hyperparameters come from `preceding_units[i]` when `i <
len(preceding_units)`, else from the per-layer arrays; the activations come
from the builder in both cases. -/
def mkLayerCfg (b : BuilderCfg) (i : Nat) (n_inputs : Nat) : UnitCfg :=
  let np := b.preceding_units.length
  let unit_name := "Unit_" ++ toString i
  if i < np then
    let pu := (b.preceding_units.getD i (UnitSt.mk0 UnitCfg.default0)).cfg
    { name := unit_name, n_inputs := n_inputs, n_neurons := pu.n_neurons,
      noise_stddev := pu.noise_stddev,
      input_dropout_rate := pu.input_dropout_rate,
      hidden_dropout_rate := pu.hidden_dropout_rate,
      hidden_activation := b.unit_hidden_activations,
      output_activation := b.unit_output_activations,
      regularizer := pu.regularizer }
  else
    { name := unit_name, n_inputs := n_inputs,
      n_neurons := b.n_neurons_per_layer.getD (i - np) 0,
      noise_stddev := (b.unit_noise_stddev.getD (i - np) none),
      input_dropout_rate := (b.unit_input_dropout_rate.getD (i - np) none),
      hidden_dropout_rate := (b.unit_hidden_dropout_rate.getD (i - np) none),
      hidden_activation := b.unit_hidden_activations,
      output_activation := b.unit_output_activations,
      regularizer := (b.unit_regularizer.getD (i - np) none) }

/-- The model path for hidden layer `i` (line 850): the preceding unit's
path when reused, else `{cache_dir}/Unit_{i}/Unit_{i}.model`. -/
def layerModelPath (b : BuilderCfg) (i : Nat) : String :=
  if i < b.preceding_units.length then
    b.preceding_unit_model_paths.getD i ""
  else
    b.cache_dir ++ "/Unit_" ++ toString i ++ "/Unit_" ++ toString i ++ ".model"

/-- Destructure `[X_recon] = unit.restore_and_eval(..., ["outputs"])`. -/
def expectOneMat : List RVal → Except PyErr Mat
  | [RVal.matV m] => .ok m
  | _ => .error .unpackError

/-- Destructure `[loss, X] = unit.restore_and_eval(...,
["reconstruction_loss", "hidden_outputs"])`. -/
def expectScalarMat : List RVal → Except PyErr (ℚ × Mat)
  | [RVal.scalarV q, RVal.matV m] => .ok (q, m)
  | _ => .error .unpackError

/-- Value of the trained unit's hidden layer on input `X`, with the unit's
variables holding the values of checkpoint `cp` (this is exactly what the
`"hidden_outputs"` fetch of `restore_and_eval` computes). -/
def unitHiddenOutputs (senv : SemEnv) (c : UnitCfg) (cp : Checkpoint) (X : Mat) :
    Except PyErr Mat :=
  evalT (UnitAutoencoder.runEnv senv X (cpVars (unitTVarNames c) cp)) (unitGraph c).hidden

/-- What one iteration of the pretraining loop leaves behind: the unit for
that hidden layer, its model path, and the checkpoint it was read back
from when producing the next layer's data. -/
structure LayerOut where
  unit : UnitSt
  model_path : String
  cp : Checkpoint

/-- Default `LayerOut` (only a `getD` fallback behind length checks). -/
def LayerOut.default0 : LayerOut :=
  { unit := UnitSt.mk0 UnitCfg.default0, model_path := "", cp := fun _ => PVal.vec [] }

/-- One iteration of the `for hidden_layer in range(self.n_hidden_layers)`
loop of `build_pretrained_stack` (lines 821-892), for layer `i` with
current data `(Xt, Xv)`:

* the unit is constructed with `n_inputs = X_train_current.shape[1]`;
* if no checkpoint exists at the layer's model path: either train the unit
  with `fit` (`pretrained_weight_initialization`) or save an untrained
  model; then reconstruct the training data for the plots
  (`restore_and_eval(X_train_current, unit_model_path, ["outputs"])`,
  with its `"Invalid output shape"` assertion) and fetch the hidden
  weights for plotting;
* otherwise reload the existing checkpoint with `unit.restore`;
* finally the data for the next layer:
  `[_, X_train_current] = unit.restore_and_eval(X_train_current,
  unit_model_path, ["reconstruction_loss", "hidden_outputs"])` and the
  same for the validation set.

CSV/plot file output carries no model state and is omitted. -/
def buildLayerPrep (b : BuilderCfg) (senv : SemEnv) (fe : FitEnv) (pwi : Bool)
    (n_epochs : Nat) (batch_size : Option Nat) (checkpoint_steps : Nat)
    (i : Nat) (fs : FS) (Xt Xv : Mat) : Except PyErr (FS × UnitSt) := do
  let u0 := UnitSt.mk0 (mkLayerCfg b i (matWidth Xt))
  let path := layerModelPath b i
  match fs path with
  | none => do
    let (uA, fsA) ←
      if pwi then do
        let (uf, fsf, _model_step, _all_steps) ←
          UnitAutoencoder.fit u0 fe Xt Xv n_epochs path true batch_size checkpoint_steps fs
        pure (uf, fsf)
      else
        pure (UnitAutoencoder.save_untrained_model u0 fe path fs)
    let (uB, rv) ← UnitAutoencoder.restore_and_eval uA senv Xt fsA path ["outputs"]
    let X_recon ← expectOneMat rv
    if X_recon.length = Xt.length ∧ matWidth X_recon = matWidth Xt then do
      let _hw ← UnitAutoencoder.hidden_weights uB
      pure (fsA, uB)
    else
      .error (.assertionError "Invalid output shape")
  | some _ => do
    let uR ← UnitAutoencoder.restore u0 fs path
    pure (fs, uR)

/-- The end of a loop iteration: compute the data for the next layer by
reading the trained unit back from its model file. -/
def buildLayerTail (senv : SemEnv) (u1 : UnitSt) (fs1 : FS) (path : String)
    (Xt Xv : Mat) : Except PyErr (LayerOut × Mat × Mat) := do
  let (u2, rv1) ←
    UnitAutoencoder.restore_and_eval u1 senv Xt fs1 path ["reconstruction_loss", "hidden_outputs"]
  let (_train_loss, Xt') ← expectScalarMat rv1
  let (u3, rv2) ←
    UnitAutoencoder.restore_and_eval u2 senv Xv fs1 path ["reconstruction_loss", "hidden_outputs"]
  let (_valid_loss, Xv') ← expectScalarMat rv2
  match fs1 path with
  | none => .error (.notFound path)
  | some cp => return ({ unit := u3, model_path := path, cp := cp }, Xt', Xv')

/-- One full loop iteration: the branchy first half followed by the tail. -/
def buildLayer (b : BuilderCfg) (senv : SemEnv) (fe : FitEnv) (pwi : Bool)
    (n_epochs : Nat) (batch_size : Option Nat) (checkpoint_steps : Nat)
    (i : Nat) (fs : FS) (Xt Xv : Mat) :
    Except PyErr (FS × LayerOut × Mat × Mat) := do
  let (fs1, u1) ← buildLayerPrep b senv fe pwi n_epochs batch_size checkpoint_steps i fs Xt Xv
  let (lo, Xt', Xv') ← buildLayerTail senv u1 fs1 (layerModelPath b i) Xt Xv
  return (fs1, lo, Xt', Xv')

/-- The pretraining loop over layers `i, i+1, ..., i+k-1`.  Returns the
final file system, the per-layer outputs, and the successive training and
validation data stages (`k+1` entries each are produced, the first being the
data handed in). -/
def buildFrom (b : BuilderCfg) (senv : SemEnv) (feOf : Nat → FitEnv) (pwi : Bool)
    (n_epochs : Nat) (batch_size : Option Nat) (checkpoint_steps : Nat) :
    (k : Nat) → (i : Nat) → FS → Mat → Mat →
    Except PyErr (FS × List LayerOut × List Mat × List Mat)
  | 0, _i, fs, Xt, Xv => .ok (fs, [], [Xt], [Xv])
  | k + 1, i, fs, Xt, Xv => do
    let (fs', lo, Xt', Xv') ←
      buildLayer b senv (feOf i) pwi n_epochs batch_size checkpoint_steps i fs Xt Xv
    let (fs'', los, ts, vs) ←
      buildFrom b senv feOf pwi n_epochs batch_size checkpoint_steps k (i + 1) fs' Xt' Xv'
    return (fs'', lo :: los, Xt :: ts, Xv :: vs)

/-- The pretraining phase of `StackBuilder.build_pretrained_stack` (lines
816-892): assert equal feature widths of the training and validation sets,
then run the per-layer loop for all `n_hidden_layers` layers. -/
def buildPretrainedStackUnits (b : BuilderCfg) (senv : SemEnv) (feOf : Nat → FitEnv)
    (pwi : Bool) (n_epochs : Nat) (batch_size : Option Nat) (checkpoint_steps : Nat)
    (fs : FS) (X_train X_valid : Mat) :
    Except PyErr (FS × List LayerOut × List Mat × List Mat) :=
  if matWidth X_train = matWidth X_valid then
    buildFrom b senv feOf pwi n_epochs batch_size checkpoint_steps
      b.nHiddenLayers 0 fs X_train X_valid
  else
    .error (.assertionError "Invalid input shapes")

/-! ## Derived observations and concrete fixtures -/

/-- The `tf.layers.dense` calls occurring in an expression, in creation
order, as `(layer name, number of units, activation)`. -/
def denseLayersT : TExpr → List (String × Nat × Option String)
  | .placeholder _ _ => []
  | .gaussianNoiseCond _ x => denseLayersT x
  | .dropout _ x => denseLayersT x
  | .dense layer nUnits activation x => denseLayersT x ++ [(layer, nUnits, activation)]
  | .matmulBias _ _ x => denseLayersT x
  | .appAct _ x => denseLayersT x

/-- Tiny concrete unit configuration: one input, one hidden neuron, no
corruption, linear activations, no regularizer. -/
def cfgA : UnitCfg :=
  { name := "u", n_inputs := 1, n_neurons := 1, noise_stddev := none,
    input_dropout_rate := none, hidden_dropout_rate := none,
    hidden_activation := none, output_activation := none, regularizer := none }

/-- Same unit but with BOTH a noise stddev and an input dropout rate. -/
def cfgNoise : UnitCfg :=
  { cfgA with noise_stddev := some 1, input_dropout_rate := some (1/2) }

/-- Concrete semantic oracles: identity activations, zero noise/loss
oracles. -/
def senvA : SemEnv :=
  { actSem := fun _ r => r, noiseFn := fun _ m => m, dropFn := fun _ m => m,
    regSem := fun _ _ => 0, xentSem := fun _ _ => 0 }

/-- Concrete checkpoint for `cfgA`: identity 1x1 kernels, zero biases. -/
def cpA : Checkpoint := fun n =>
  if n = "u_hidden/kernel:0" then PVal.mat [[1]]
  else if n = "u_hidden/bias:0" then PVal.vec [0]
  else if n = "u_outputs/kernel:0" then PVal.mat [[1]]
  else if n = "u_outputs/bias:0" then PVal.vec [0]
  else PVal.vec []

/-- Concrete file system with one model file `"m"`. -/
def fsA : FS := fun p => if p = "m" then some cpA else none

/-- The params dictionary `restore` builds from `cpA`. -/
def psA : Params := paramsFromCheckpoint (unitTVarNames cfgA) cpA

/-- A unit whose params were set (as by `fit`/`restore`). -/
def unitA : UnitSt := { cfg := cfgA, params := some psA }

/-- A freshly constructed unit (`self.params = None`). -/
def unitA0 : UnitSt := UnitSt.mk0 cfgA

/-- A unit holding stale params, to be replaced by `restore`. -/
def unitStale : UnitSt := { cfg := cfgA, params := some [("junk", PVal.vec [7])] }

/-- Concrete evaluation environment: `X = [[1]]` fed, variables from `cpA`. -/
def envA : EvalEnv := UnitAutoencoder.runEnv senvA [[1]] (cpVars (unitTVarNames cfgA) cpA)

/-- Concrete fit oracles. -/
def feA : FitEnv :=
  { lossAt := fun _ => 0, stopAt := fun _ => false, varsAt := fun _ => cpA,
    finalVars := cpA, initVars := cpA }

/-- Concrete finalized stack accepting width-1 inputs (for the `fit`
assertions). -/
def stackFitA : StackSt :=
  { (StackSt.mk0 "s") with
    graphInit := true,
    X := some (TExpr.placeholder "X" (some 1)),
    y := some (TExpr.placeholder "y" none),
    trainingOpSet := true }

/-- Concrete stack with one hidden layer of static width 2, ready for the
softmax output layer. -/
def stackC4 : StackSt :=
  { (StackSt.mk0 "s") with
    graphInit := true,
    hidden := [TExpr.dense "s_h0" 2 none (TExpr.placeholder "X" (some 3))],
    y := some (TExpr.placeholder "y" none) }

/-- Concrete one-layer builder configuration. -/
def bA : BuilderCfg :=
  { name := "S", preceding_units := [], preceding_unit_model_paths := [],
    n_neurons_per_layer := [1], unit_regularizer := [none],
    unit_noise_stddev := [none], unit_input_dropout_rate := [none],
    unit_hidden_dropout_rate := [none], unit_hidden_activations := none,
    unit_output_activations := none, cache_dir := "c" }

/-- Concrete checkpoint for the builder's `Unit_0`. -/
def cpB : Checkpoint := fun n =>
  if n = "Unit_0_hidden/kernel:0" then PVal.mat [[1]]
  else if n = "Unit_0_hidden/bias:0" then PVal.vec [0]
  else if n = "Unit_0_outputs/kernel:0" then PVal.mat [[1]]
  else if n = "Unit_0_outputs/bias:0" then PVal.vec [0]
  else PVal.vec []

/-- File system already holding a trained checkpoint for `Unit_0` (so the
builder takes the reload branch). -/
def fsB : FS := fun p => if p = "c/Unit_0/Unit_0.model" then some cpB else none

/-- The unit state the builder's loop ends up with for layer 0 of `bA`. -/
def uB3 : UnitSt :=
  { cfg := mkLayerCfg bA 0 1,
    params := some (paramsFromCheckpoint (unitTVarNames (mkLayerCfg bA 0 1)) cpB) }

/-- The layer-0 output of the builder's loop on `bA`. -/
def loB : LayerOut := { unit := uB3, model_path := "c/Unit_0/Unit_0.model", cp := cpB }

/-! ## Helper lemmas -/

/-- Appending different suffixes to the same string gives different strings. -/
theorem strAppend_ne (s : String) {a b : String} (h : a ≠ b) : s ++ a ≠ s ++ b := by
  intro he
  apply h
  cases s with
  | mk sd =>
    cases a with
    | mk ad =>
      cases b with
      | mk bd =>
        have hd : sd ++ ad = sd ++ bd := congrArg String.data he
        have hab : ad = bd := List.append_cancel_left hd
        rw [hab]

/-- A successful `sess.run` returns one value per fetch. -/
theorem sessRun_ok_length (env : EvalEnv) :
    ∀ (fl : List Fetchable) (vs : List RVal), sessRun env fl = .ok vs → vs.length = fl.length := by
  intro fl
  induction fl with
  | nil =>
    intro vs h
    simp only [sessRun] at h
    cases h
    rfl
  | cons f rest ih =>
    intro vs h
    simp only [sessRun, bind, Except.bind] at h
    split at h
    · cases h
    next v hf =>
      split at h
      · cases h
      next vs' hr =>
        simp only [pure, Except.pure, Except.ok.injEq] at h
        subst h
        simp [ih vs' hr]

/-- If some element is dropped, `filterMap` strictly shrinks the list. -/
theorem filterMap_length_lt {α β : Type} (f : α → Option β) :
    ∀ (l : List α) (v : α), v ∈ l → f v = none → (l.filterMap f).length < l.length := by
  intro l
  induction l with
  | nil => intro v hv; cases hv
  | cons x xs ih =>
    intro v hv hnone
    rw [List.filterMap_cons]
    rcases List.mem_cons.mp hv with h | h
    · rw [h] at hnone
      rw [hnone]
      have h1 : (xs.filterMap f).length ≤ xs.length := List.length_filterMap_le f xs
      simpa using Nat.lt_succ_of_le h1
    · cases hfx : f x with
      | none =>
        have h1 := ih v h hnone
        simpa using Nat.lt_succ_of_lt h1
      | some b =>
        have h1 := ih v h hnone
        simpa using Nat.succ_lt_succ h1

/-- Looking up a listed variable in the restored params dictionary yields
its checkpoint value. -/
theorem lookup_paramsFromCheckpoint_mem (cp : Checkpoint) :
    ∀ (names : List String) (n : String), n ∈ names →
      (paramsFromCheckpoint names cp).lookup n = some (cp n) := by
  intro names
  induction names with
  | nil => intro n hn; cases hn
  | cons m ms ih =>
    intro n hn
    simp only [paramsFromCheckpoint, List.map_cons, List.lookup]
    by_cases hnm : n = m
    · subst hnm
      simp
    · have : (n == m) = false := beq_false_of_ne hnm
      rw [this]
      exact ih n (by rcases List.mem_cons.mp hn with h | h; exact absurd h hnm; exact h)

/-- Looking up an unlisted key in the restored params dictionary misses. -/
theorem lookup_paramsFromCheckpoint_not_mem (cp : Checkpoint) :
    ∀ (names : List String) (n : String), n ∉ names →
      (paramsFromCheckpoint names cp).lookup n = none := by
  intro names
  induction names with
  | nil => intro n _; rfl
  | cons m ms ih =>
    intro n hn
    have hnm : n ≠ m := fun h => hn (by simp [h])
    have hms : n ∉ ms := fun h => hn (List.mem_cons_of_mem _ h)
    simp only [paramsFromCheckpoint, List.map_cons, List.lookup, beq_false_of_ne hnm]
    exact ih n hms

/-! ## C1 -/

/-- C1: every `UnitAutoencoder` graph has exactly one hidden dense layer of
`n_neurons` units with `hidden_activation` and one output dense layer of
`n_inputs` units with `output_activation`; the reconstruction loss is the
mean squared error between the outputs and the CLEAN placeholder `X` (not
the corrupted input), and the training objective `loss` is
`add_n([reconstruction_loss] + reg_losses)` where `reg_losses` are the
kernel-regularizer terms of the two dense layers. -/
theorem C1_unit_network_and_objective (c : UnitCfg) :
    denseLayersT (unitGraph c).outputs =
      [(c.name ++ "_hidden", c.n_neurons, c.hidden_activation),
       (c.name ++ "_outputs", c.n_inputs, c.output_activation)] ∧
    (unitGraph c).X = TExpr.placeholder "X" (some c.n_inputs) ∧
    (unitGraph c).reconstruction_loss =
      SExpr.meanSqDiff (unitGraph c).outputs (unitGraph c).X ∧
    (unitGraph c).loss =
      SExpr.addN ((unitGraph c).reconstruction_loss :: (unitGraph c).reg_losses) ∧
    (unitGraph c).reg_losses =
      (match c.regularizer with
       | some r => [SExpr.regApp r (c.name ++ "_hidden/kernel:0"),
                    SExpr.regApp r (c.name ++ "_outputs/kernel:0")]
       | none => []) ∧
    ∀ (env : EvalEnv) (Xc out : Mat), env.feeds "X" = some Xc →
      evalT env (unitGraph c).outputs = .ok out →
      evalS env (unitGraph c).reconstruction_loss = .ok (mseQ out Xc) := by
  refine ⟨?_, rfl, rfl, rfl, rfl, ?_⟩
  · cases hn : c.noise_stddev <;> cases hd : c.input_dropout_rate <;>
      cases hh : c.hidden_dropout_rate <;>
      simp [unitGraph, denseLayersT, hn, hd, hh]
  · intro env Xc out hX hout
    have h1 : (unitGraph c).reconstruction_loss =
        SExpr.meanSqDiff (unitGraph c).outputs (unitGraph c).X := rfl
    have hXv : evalT env (unitGraph c).X = .ok Xc := by
      have h2 : (unitGraph c).X = TExpr.placeholder "X" (some c.n_inputs) := rfl
      rw [h2]
      simp [evalT, hX]
    rw [h1]
    simp only [evalS, bind, Except.bind]
    rw [hout, hXv]
    rfl

/-- Witness for C1 at a concrete unit and environment. -/
theorem C1_witness :
    evalS envA (unitGraph cfgA).reconstruction_loss = .ok (mseQ [[1]] [[1]]) :=
  (C1_unit_network_and_objective cfgA).2.2.2.2.2 envA [[1]] [[1]] rfl (by decide)

/-- Outside training mode the Gaussian-noise `tf.cond` is the identity. -/
theorem evalT_gaussianCond_not_training (env : EvalEnv) (ht : env.training = false)
    (stddev : ℚ) (x : TExpr) : evalT env (.gaussianNoiseCond stddev x) = evalT env x := by
  simp only [evalT, bind, Except.bind, ht]
  cases evalT env x <;> rfl

/-- Outside training mode a dropout layer is the identity. -/
theorem evalT_dropout_not_training (env : EvalEnv) (ht : env.training = false)
    (rate : ℚ) (x : TExpr) : evalT env (.dropout rate x) = evalT env x := by
  simp only [evalT, bind, Except.bind, ht]
  cases evalT env x <;> rfl

/-! ## C5 -/

/-- C5: input corruption is selected deterministically at construction:
a non-`None` `noise_stddev` yields the Gaussian-noise `tf.cond` (taking
precedence over `input_dropout_rate`); otherwise a non-`None`
`input_dropout_rate` yields a dropout layer; otherwise the input feeds the
hidden layer unchanged.  In every case the corruption is inactive when the
`training` placeholder is `False`. -/
theorem C5_input_corruption_selection (c : UnitCfg) :
    (∀ σ, c.noise_stddev = some σ →
        (unitGraph c).x_noisy = TExpr.gaussianNoiseCond σ (unitGraph c).X) ∧
    (∀ r, c.noise_stddev = none → c.input_dropout_rate = some r →
        (unitGraph c).x_noisy = TExpr.dropout r (unitGraph c).X) ∧
    (c.noise_stddev = none → c.input_dropout_rate = none →
        (unitGraph c).x_noisy = (unitGraph c).X) ∧
    (∀ env : EvalEnv, env.training = false →
        evalT env (unitGraph c).x_noisy = evalT env (unitGraph c).X) := by
  refine ⟨?_, ?_, ?_, ?_⟩
  · intro σ hσ
    simp [unitGraph, hσ]
  · intro r hn hr
    simp [unitGraph, hn, hr]
  · intro hn hr
    simp [unitGraph, hn, hr]
  · intro env ht
    cases hn : c.noise_stddev with
    | some σ =>
      have hx : (unitGraph c).x_noisy = TExpr.gaussianNoiseCond σ (unitGraph c).X := by
        simp [unitGraph, hn]
      rw [hx, evalT_gaussianCond_not_training env ht]
    | none =>
      cases hd : c.input_dropout_rate with
      | some r =>
        have hx : (unitGraph c).x_noisy = TExpr.dropout r (unitGraph c).X := by
          simp [unitGraph, hn, hd]
        rw [hx, evalT_dropout_not_training env ht]
      | none =>
        have hx : (unitGraph c).x_noisy = (unitGraph c).X := by
          simp [unitGraph, hn, hd]
        rw [hx]

/-- Witness for C5: with both a noise stddev and an input dropout rate
given, the noise branch wins, and evaluation outside training mode leaves
the input unchanged. -/
theorem C5_witness :
    (unitGraph cfgNoise).x_noisy = TExpr.gaussianNoiseCond 1 (unitGraph cfgNoise).X ∧
    evalT envA (unitGraph cfgNoise).x_noisy = evalT envA (unitGraph cfgNoise).X :=
  ⟨(C5_input_corruption_selection cfgNoise).1 1 rfl,
   (C5_input_corruption_selection cfgNoise).2.2.2 envA rfl⟩

/-! ## C6 -/

/-- C6: after `restore(model_path)` returns, `self.params` maps the name of
every trainable variable of the graph to the value restored from the
checkpoint file, for both `UnitAutoencoder.restore` and
`StackedAutoencoders.restore`.  The statement quantifies over the object's
previous `params` (inside `u` and `st`), so any previously held dictionary
is replaced. -/
theorem C6_restore_rebuilds_params (u : UnitSt) (st : StackSt) (fs : FS)
    (path : String) (cp : Checkpoint)
    (hfs : fs path = some cp) (hg : st.graphInit = true) :
    UnitAutoencoder.restore u fs path =
      .ok { u with params := some (paramsFromCheckpoint (unitTVarNames u.cfg) cp) } ∧
    (∀ n ∈ unitTVarNames u.cfg,
       (paramsFromCheckpoint (unitTVarNames u.cfg) cp).lookup n = some (cp n)) ∧
    StackedAutoencoders.restore st fs path =
      .ok (paramsFromCheckpoint (st.tvars.map Prod.fst) cp) ∧
    (∀ n ∈ st.tvars.map Prod.fst,
       (paramsFromCheckpoint (st.tvars.map Prod.fst) cp).lookup n = some (cp n)) := by
  refine ⟨?_, ?_, ?_, ?_⟩
  · simp [UnitAutoencoder.restore, hfs]
  · intro n hn
    exact lookup_paramsFromCheckpoint_mem cp _ n hn
  · simp [StackedAutoencoders.restore, hg, hfs]
  · intro n hn
    exact lookup_paramsFromCheckpoint_mem cp _ n hn

/-- Witness for C6: restoring over stale params replaces them. -/
theorem C6_witness :
    UnitAutoencoder.restore unitStale fsA "m" =
      .ok { unitStale with params := some (paramsFromCheckpoint (unitTVarNames unitStale.cfg) cpA) } ∧
    StackedAutoencoders.restore stackFitA fsA "m" =
      .ok (paramsFromCheckpoint (stackFitA.tvars.map Prod.fst) cpA) :=
  ⟨(C6_restore_rebuilds_params unitStale stackFitA fsA "m" cpA rfl rfl).1,
   (C6_restore_rebuilds_params unitStale stackFitA fsA "m" cpA rfl rfl).2.2.1⟩

/-! ## C8 -/

/-- The buggy getter key is not among the registered variable names. -/
theorem output_kernel_key_not_mem (nm : String) :
    nm ++ "_output/kernel:0" ∉
      [nm ++ "_hidden/kernel:0", nm ++ "_hidden/bias:0",
       nm ++ "_outputs/kernel:0", nm ++ "_outputs/bias:0"] := by
  intro h
  rcases List.mem_cons.mp h with h1 | h
  · exact strAppend_ne nm (by decide) h1
  rcases List.mem_cons.mp h with h2 | h
  · exact strAppend_ne nm (by decide) h2
  rcases List.mem_cons.mp h with h3 | h
  · exact strAppend_ne nm (by decide) h3
  rcases List.mem_cons.mp h with h4 | h
  · exact strAppend_ne nm (by decide) h4
  · cases h

/-- The buggy bias key is not among the registered variable names. -/
theorem output_bias_key_not_mem (nm : String) :
    nm ++ "_output/bias:0" ∉
      [nm ++ "_hidden/kernel:0", nm ++ "_hidden/bias:0",
       nm ++ "_outputs/kernel:0", nm ++ "_outputs/bias:0"] := by
  intro h
  rcases List.mem_cons.mp h with h1 | h
  · exact strAppend_ne nm (by decide) h1
  rcases List.mem_cons.mp h with h2 | h
  · exact strAppend_ne nm (by decide) h2
  rcases List.mem_cons.mp h with h3 | h
  · exact strAppend_ne nm (by decide) h3
  rcases List.mem_cons.mp h with h4 | h
  · exact strAppend_ne nm (by decide) h4
  · cases h

/-- C8: with `params` set the way `fit`/`restore` set it (one entry per
trainable variable name), `output_weights` and `output_biases` raise
`KeyError`, because the output layer registered its variables under
`{name}_outputs/...` while the getters look up `{name}_output/...`;
consequently `_add_output_layer` fails with that `KeyError` and
`stack_decoder` can never return successfully. -/
theorem C8_output_getters_keyerror (c : UnitCfg) (cp : Checkpoint) :
    UnitAutoencoder.output_weights
        { cfg := c, params := some (paramsFromCheckpoint (unitTVarNames c) cp) } =
      .error (.keyError (c.name ++ "_output/kernel:0")) ∧
    UnitAutoencoder.output_biases
        { cfg := c, params := some (paramsFromCheckpoint (unitTVarNames c) cp) } =
      .error (.keyError (c.name ++ "_output/bias:0")) ∧
    (∀ (layer_name : String) (reg : Option String) (idr odr : Option ℚ) (it : TExpr),
       StackedAutoencoders.add_output_layer
           { cfg := c, params := some (paramsFromCheckpoint (unitTVarNames c) cp) }
           layer_name reg idr odr it =
         .error (.keyError (c.name ++ "_output/kernel:0"))) ∧
    (∀ (st : StackSt) (layer_name : String) (irl : Bool) (reg : Option String)
       (idr odr : Option ℚ),
       ∃ e, StackedAutoencoders.stack_decoder st
           { cfg := c, params := some (paramsFromCheckpoint (unitTVarNames c) cp) }
           layer_name irl reg idr odr = .error e) := by
  have hkn : (paramsFromCheckpoint (unitTVarNames c) cp).lookup (c.name ++ "_output/kernel:0") = none :=
    lookup_paramsFromCheckpoint_not_mem cp _ _ (output_kernel_key_not_mem c.name)
  have hbn : (paramsFromCheckpoint (unitTVarNames c) cp).lookup (c.name ++ "_output/bias:0") = none :=
    lookup_paramsFromCheckpoint_not_mem cp _ _ (output_bias_key_not_mem c.name)
  have htr : paramsTruthy (some (paramsFromCheckpoint (unitTVarNames c) cp)) := by
    simp [paramsTruthy, paramsFromCheckpoint, unitTVarNames]
  have how : UnitAutoencoder.output_weights
      { cfg := c, params := some (paramsFromCheckpoint (unitTVarNames c) cp) } =
      .error (.keyError (c.name ++ "_output/kernel:0")) := by
    simp [UnitAutoencoder.output_weights, UnitAutoencoder.paramsGet, hkn]
  have hob : UnitAutoencoder.output_biases
      { cfg := c, params := some (paramsFromCheckpoint (unitTVarNames c) cp) } =
      .error (.keyError (c.name ++ "_output/bias:0")) := by
    simp [UnitAutoencoder.output_biases, UnitAutoencoder.paramsGet, hbn]
  have hol : ∀ (layer_name : String) (reg : Option String) (idr odr : Option ℚ) (it : TExpr),
      StackedAutoencoders.add_output_layer
          { cfg := c, params := some (paramsFromCheckpoint (unitTVarNames c) cp) }
          layer_name reg idr odr it =
        .error (.keyError (c.name ++ "_output/kernel:0")) := by
    intro layer_name reg idr odr it
    simp [StackedAutoencoders.add_output_layer, htr, how, bind, Except.bind]
  refine ⟨how, hob, hol, ?_⟩
  intro st layer_name irl reg idr odr
  cases hl : st.hidden.getLast? with
  | none =>
    refine ⟨.assertionError "Empty encoder layers", ?_⟩
    simp [StackedAutoencoders.stack_decoder, hl]
  | some t =>
    refine ⟨.keyError (c.name ++ "_output/kernel:0"), ?_⟩
    simp [StackedAutoencoders.stack_decoder, hl, hol, bind, Except.bind]

/-! ## C10 -/

/-- A name outside the recognized four maps to no fetch. -/
theorem fetchOfName_none (g : UnitGraph) (v : String)
    (hnv : v ∉ (["loss", "reconstruction_loss", "hidden_outputs", "outputs"] : List String)) :
    UnitAutoencoder.fetchOfName g v = none := by
  simp only [List.mem_cons, List.mem_singleton, not_or] at hnv
  obtain ⟨h1, h2, h3, h4, _⟩ := hnv
  simp [UnitAutoencoder.fetchOfName, h1, h2, h3, h4]

/-- The strict fetch loop raises `ValueError` whenever an unrecognized name
occurs in `varlist`. -/
theorem fetchesStrict_error (g : UnitGraph) (v : String) :
    ∀ (varlist : List String), v ∈ varlist → UnitAutoencoder.fetchOfName g v = none →
      ∃ msg, UnitAutoencoder.fetchesStrict g varlist = .error (.valueError msg) := by
  intro varlist
  induction varlist with
  | nil => intro hv; cases hv
  | cons w rest ih =>
    intro hv hnone
    cases hw : UnitAutoencoder.fetchOfName g w with
    | none =>
      exact ⟨"Unrecognized variable " ++ w ++ " to evaluate",
        by simp [UnitAutoencoder.fetchesStrict, hw]⟩
    | some f =>
      have hvr : v ∈ rest := by
        rcases List.mem_cons.mp hv with h | h
        · subst h; rw [hw] at hnone; cases hnone
        · exact h
      obtain ⟨msg, hmsg⟩ := ih hvr hnone
      exact ⟨msg, by simp [UnitAutoencoder.fetchesStrict, hw, hmsg, bind, Except.bind]⟩

/-- C10: `eval` raises `ValueError` when `varlist` contains a name outside
the recognized four, while `restore_and_eval` silently skips unrecognized
names and returns strictly fewer values than `len(varlist)`. -/
theorem C10_eval_strict_restore_and_eval_skips (u : UnitSt) (senv : SemEnv)
    (X : Mat) (varlist : List String) (fs : FS) (path : String) (v : String)
    (hp : paramsTruthy u.params) (hv : v ∈ varlist)
    (hnv : v ∉ (["loss", "reconstruction_loss", "hidden_outputs", "outputs"] : List String)) :
    (∃ msg, UnitAutoencoder.eval u senv X varlist = .error (.valueError msg)) ∧
    ∀ (u' : UnitSt) (vals : List RVal),
      UnitAutoencoder.restore_and_eval u senv X fs path varlist = .ok (u', vals) →
      vals.length < varlist.length := by
  have hnone := fetchOfName_none (unitGraph u.cfg) v hnv
  constructor
  · obtain ⟨msg, hmsg⟩ := fetchesStrict_error (unitGraph u.cfg) v varlist hv hnone
    exact ⟨msg, by simp [UnitAutoencoder.eval, hp, hmsg, bind, Except.bind]⟩
  · intro u' vals h
    simp only [UnitAutoencoder.restore_and_eval, bind, Except.bind] at h
    split at h
    · cases h
    next cp hcp =>
      split at h
      · cases h
      next vals' hrun =>
        simp only [pure, Except.pure, Except.ok.injEq, Prod.mk.injEq] at h
        obtain ⟨_, hvals⟩ := h
        subst hvals
        have hlen := sessRun_ok_length _ _ _ hrun
        rw [hlen]
        simp only [UnitAutoencoder.fetchesSkip]
        exact filterMap_length_lt _ varlist v hv hnone

/-- Witness for C10 at a concrete unit and varlist. -/
theorem C10_witness :
    (∃ msg, UnitAutoencoder.eval unitA senvA [[1]] ["outputs", "bogus"] =
      .error (.valueError msg)) ∧
    ([RVal.matV [[1]]] : List RVal).length <
      (["outputs", "bogus"] : List String).length := by
  have h := C10_eval_strict_restore_and_eval_skips unitA senvA [[1]]
    ["outputs", "bogus"] fsA "m" "bogus" (by decide) (by decide) (by decide)
  exact ⟨h.1, h.2 unitA [RVal.matV [[1]]] rfl⟩

/-! ## C7 -/

/-- C7 (code bug): `eval` opens a fresh session without `init.run` or
`saver.restore`, so its variables are uninitialized and any fetch that
reads them raises `FailedPreconditionError`, contradicting the
function's own documented contract of returning the evaluated values.
Hence `restore(model_path)` followed by `eval(X, varlist)` diverges from
`restore_and_eval(X, model_path, varlist)` on every non-empty valid
varlist: here at `X = [[1]]`, `varlist = ["outputs"]`. -/
theorem C7_restore_then_eval_diverges :
    ((UnitAutoencoder.restore unitA0 fsA "m").bind
        fun u' => UnitAutoencoder.eval u' senvA [[1]] ["outputs"]) =
      .error (.failedPrecondition "u_hidden/kernel:0") ∧
    UnitAutoencoder.restore_and_eval unitA0 senvA [[1]] fsA "m" ["outputs"] =
      .ok (unitA, [RVal.matV [[1]]]) := by
  constructor
  · rfl
  · rfl

/-! ## C9 -/

/-- With zero batches per epoch the training loop never runs a step. -/
theorem fitCore_zero_batches (fe : FitEnv) (sbo : Bool) (cs n_epochs : Nat) :
    fitCore fe sbo cs n_epochs 0 = fitAcc0 := by
  have h : ∀ (l : List Nat) (a : FitAcc),
      l.foldl (fun x e => fitEpoch fe sbo cs 0 e x) a = a := by
    intro l
    induction l with
    | nil => intro a; rfl
    | cons e es ih =>
      intro a
      simp only [List.foldl_cons]
      rw [show fitEpoch fe sbo cs 0 e a = a from by simp [fitEpoch]]
      exact ih a
  simpa only [fitCore] using h (List.range n_epochs) fitAcc0

/-- C9: when `0 < len(X_train) < batch_size` the number of batches per
epoch is `len(X_train) // batch_size == 0`, so no training step ever runs,
no model is saved, `model_step` stays `-1` and both `UnitAutoencoder.fit`
and `StackedAutoencoders.fit` end in the `"Invalid model step"`
`AssertionError`. -/
theorem C9_fit_asserts_on_small_training_set (c : UnitCfg) (p : Option Params)
    (st : StackSt) (fe : FitEnv) (X_train X_valid y_train y_valid : Mat)
    (n_epochs bs checkpoint_steps : Nat) (save_best_only : Bool)
    (model_path : String) (fs : FS)
    (hw : c.n_inputs = matWidth X_train)
    (hpos : 0 < X_train.length) (hsmall : X_train.length < bs) (hne : 1 ≤ n_epochs)
    (hop : st.trainingOpSet = true)
    (hsw : StackedAutoencoders.stackInputWidth st = some (matWidth X_train)) :
    UnitAutoencoder.fit { cfg := c, params := p } fe X_train X_valid n_epochs
        model_path save_best_only (some bs) checkpoint_steps fs =
      .error (.assertionError "Invalid model step") ∧
    StackedAutoencoders.fit st fe X_train X_valid y_train y_valid model_path
        save_best_only n_epochs (some bs) checkpoint_steps fs =
      .error (.assertionError "Invalid model step") := by
  have hnb : X_train.length / bs = 0 := Nat.div_eq_of_lt hsmall
  constructor
  · simp only [UnitAutoencoder.fit, hw, if_true, Option.getD_some, hnb,
      fitCore_zero_batches]
    norm_num [fitAcc0]
  · simp only [StackedAutoencoders.fit, hop, hsw, if_true, Option.getD_some, hnb,
      fitCore_zero_batches]
    norm_num [fitAcc0]

/-- Witness for C9 at a one-example training set and batch size 2. -/
theorem C9_witness :
    UnitAutoencoder.fit unitA0 feA [[1]] [[1]] 1 "m2" true (some 2) 1 fsA =
      .error (.assertionError "Invalid model step") ∧
    StackedAutoencoders.fit stackFitA feA [[1]] [[1]] [[0]] [[0]] "m2" true 1
        (some 2) 1 fsA =
      .error (.assertionError "Invalid model step") :=
  C9_fit_asserts_on_small_training_set cfgA none stackFitA feA [[1]] [[1]] [[0]] [[0]]
    1 2 1 true "m2" fsA rfl (by decide) (by decide) (by decide) rfl rfl

/-! ## C2 -/

/-- C2: for a pretrained unit with non-`None` params, `stack_encoder`
succeeds and creates the new layer's weight and bias variables initialized
from the unit's trained hidden-layer kernel (`unit.hidden_weights()`) and
bias (`unit.hidden_biases()`), wires
`activation(matmul(input, weights) + biases)` with the unit's
`hidden_activation`, reads the input from a fresh placeholder `X` when it
is the first stacked encoder, and from the output of the previously
stacked hidden layer (`self.hidden[-1]`) otherwise. -/
theorem C2_stack_encoder_reuses_pretrained_params (st : StackSt) (u : UnitSt)
    (layer_name : String) (reg : Option String) (idr hdr : Option ℚ)
    (ps : Params) (w b : PVal)
    (hps : u.params = some ps) (hpne : ps ≠ [])
    (hw : ps.lookup (u.cfg.name ++ "_hidden/kernel:0") = some w)
    (hwsh : w.shape = [u.cfg.n_inputs, u.cfg.n_neurons])
    (hb : ps.lookup (u.cfg.name ++ "_hidden/bias:0") = some b)
    (hbsh : b.shape = [u.cfg.n_neurons]) :
    (∃ st', StackedAutoencoders.stack_encoder st u layer_name reg idr hdr = .ok st') ∧
    (StackedAutoencoders.stack_encoder st u layer_name reg idr hdr).map
        (fun s => s.tvars) =
      .ok (st.tvars ++
        [(layer_name ++ "/weights:0", VInit.fromArray w),
         (layer_name ++ "/biases:0", VInit.fromArray b)]) ∧
    (StackedAutoencoders.stack_encoder st u layer_name reg idr hdr).map
        (fun s => s.stacked_units) =
      .ok (st.stacked_units ++ [u]) ∧
    (st.hidden = [] →
      (StackedAutoencoders.stack_encoder st u layer_name reg idr hdr).map
          (fun s => (s.hidden, s.X)) =
        .ok ([
          let inp := TExpr.placeholder "X" (some u.cfg.n_inputs)
          let inpd := match idr with
                      | none => inp
                      | some r => TExpr.dropout r inp
          let pre := TExpr.matmulBias (layer_name ++ "/weights:0")
                       (layer_name ++ "/biases:0") inpd
          let act := match u.cfg.hidden_activation with
                     | some a => TExpr.appAct a pre
                     | none => pre
          match hdr with
          | none => act
          | some r => TExpr.dropout r act],
          some (TExpr.placeholder "X" (some u.cfg.n_inputs)))) ∧
    (∀ (l : List TExpr) (t : TExpr), st.hidden = l ++ [t] →
      (StackedAutoencoders.stack_encoder st u layer_name reg idr hdr).map
          (fun s => s.hidden) =
        .ok (st.hidden ++ [
          let inpd := match idr with
                      | none => t
                      | some r => TExpr.dropout r t
          let pre := TExpr.matmulBias (layer_name ++ "/weights:0")
                       (layer_name ++ "/biases:0") inpd
          let act := match u.cfg.hidden_activation with
                     | some a => TExpr.appAct a pre
                     | none => pre
          match hdr with
          | none => act
          | some r => TExpr.dropout r act])) := by
  have htr : paramsTruthy u.params := by
    rw [hps]
    exact hpne
  have hhw : UnitAutoencoder.hidden_weights u = .ok w := by
    simp [UnitAutoencoder.hidden_weights, UnitAutoencoder.paramsGet, hps, hw]
  have hhb : UnitAutoencoder.hidden_biases u = .ok b := by
    simp [UnitAutoencoder.hidden_biases, UnitAutoencoder.paramsGet, hps, hb]
  have hok : StackedAutoencoders.stack_encoder st u layer_name reg idr hdr =
      .ok { (match st.hidden.getLast? with
             | none =>
               { st with graphInit := true,
                         X := some (TExpr.placeholder "X" (some u.cfg.n_inputs)),
                         y := some (TExpr.placeholder "y" none) }
             | some _ => { st with graphInit := true }) with
            hidden := st.hidden ++ [
              let inpd := match idr with
                          | none => (match st.hidden.getLast? with
                                     | none => TExpr.placeholder "X" (some u.cfg.n_inputs)
                                     | some t => t)
                          | some r => TExpr.dropout r (match st.hidden.getLast? with
                                     | none => TExpr.placeholder "X" (some u.cfg.n_inputs)
                                     | some t => t)
              let pre := TExpr.matmulBias (layer_name ++ "/weights:0")
                           (layer_name ++ "/biases:0") inpd
              let act := match u.cfg.hidden_activation with
                         | some a => TExpr.appAct a pre
                         | none => pre
              match hdr with
              | none => act
              | some r => TExpr.dropout r act],
            encoders := (match st.hidden.getLast? with
             | none =>
               { st with graphInit := true,
                         X := some (TExpr.placeholder "X" (some u.cfg.n_inputs)),
                         y := some (TExpr.placeholder "y" none) }
             | some _ => { st with graphInit := true }).encoders ++ [
              let inpd := match idr with
                          | none => (match st.hidden.getLast? with
                                     | none => TExpr.placeholder "X" (some u.cfg.n_inputs)
                                     | some t => t)
                          | some r => TExpr.dropout r (match st.hidden.getLast? with
                                     | none => TExpr.placeholder "X" (some u.cfg.n_inputs)
                                     | some t => t)
              let pre := TExpr.matmulBias (layer_name ++ "/weights:0")
                           (layer_name ++ "/biases:0") inpd
              let act := match u.cfg.hidden_activation with
                         | some a => TExpr.appAct a pre
                         | none => pre
              match hdr with
              | none => act
              | some r => TExpr.dropout r act],
            stacked_units := st.stacked_units ++ [u],
            tvars := st.tvars ++
              [(layer_name ++ "/weights:0", VInit.fromArray w),
               (layer_name ++ "/biases:0", VInit.fromArray b)],
            loss := StackedAutoencoders.foldLoss st.loss
              (reg.map fun r => SExpr.regApp r (layer_name ++ "/weights:0")) } := by
    cases hl : st.hidden.getLast? <;>
      simp [StackedAutoencoders.stack_encoder, StackedAutoencoders.add_hidden_layer,
        htr, hhw, hhb, hwsh, hbsh, hl, bind, Except.bind, pure, Except.pure]
  refine ⟨⟨_, hok⟩, ?_, ?_, ?_, ?_⟩
  · rw [hok]
    cases hl : st.hidden.getLast? <;> rfl
  · rw [hok]
    cases hl : st.hidden.getLast? <;> rfl
  · intro hemp
    rw [hok]
    have hl : st.hidden.getLast? = none := by rw [hemp]; rfl
    simp only [hl, hemp, Except.map]
    rfl
  · intro l t hcat
    rw [hok]
    have hl : st.hidden.getLast? = some t := by rw [hcat]; exact List.getLast?_concat l
    simp only [hl, Except.map]

/-- Witness for C2 at a fresh stack and a concrete pretrained unit. -/
theorem C2_witness :
    (StackedAutoencoders.stack_encoder (StackSt.mk0 "s") unitA "enc0" none
        (some 0) (some 0)).map (fun s => s.tvars) =
      .ok [("enc0/weights:0", VInit.fromArray (PVal.mat [[1]])),
           ("enc0/biases:0", VInit.fromArray (PVal.vec [0]))] := by
  have h := C2_stack_encoder_reuses_pretrained_params (StackSt.mk0 "s") unitA
    "enc0" none (some 0) (some 0) psA (PVal.mat [[1]]) (PVal.vec [0])
    rfl (by decide) (by decide) (by decide) (by decide) (by decide)
  simpa using h.2.1

/-! ## C4 -/

/-- C4: `stack_softmax_output_layer` creates a weight variable of shape
`(width of the last hidden layer, n_classes)` and a bias variable of shape
`(n_classes,)`, sets the stack's outputs to the plain affine map
`matmul(last_hidden, weights) + biases` (logits, with no activation node:
the softmax lives only inside the cross-entropy loss term), and adds the
mean sparse softmax cross-entropy between `y` and these logits - plus the
kernel regularizer term when one is given - to the stack's loss. -/
theorem C4_softmax_output_layer (st : StackSt) (layer_name : String)
    (n_classes : Nat) (kreg : Option String) (l : List TExpr) (t : TExpr)
    (w : Nat) (yE : TExpr)
    (hh : st.hidden = l ++ [t]) (hg : st.graphInit = true)
    (hcols : StackedAutoencoders.colsOf st.tvars t = some w)
    (hy : st.y = some yE) :
    (∃ st', StackedAutoencoders.stack_softmax_output_layer st layer_name n_classes kreg =
      .ok st') ∧
    (StackedAutoencoders.stack_softmax_output_layer st layer_name n_classes kreg).map
        (fun s => s.tvars) =
      .ok (st.tvars ++
        [(layer_name ++ "/weights:0", VInit.fromInitializer [w, n_classes]),
         (layer_name ++ "/biases:0", VInit.fromInitializer [n_classes])]) ∧
    (StackedAutoencoders.stack_softmax_output_layer st layer_name n_classes kreg).map
        (fun s => s.outputs) =
      .ok (some (TExpr.matmulBias (layer_name ++ "/weights:0")
        (layer_name ++ "/biases:0") t)) ∧
    (StackedAutoencoders.stack_softmax_output_layer st layer_name n_classes kreg).map
        (fun s => s.loss) =
      .ok (some (
        let entropy := SExpr.xentMean yE
          (TExpr.matmulBias (layer_name ++ "/weights:0") (layer_name ++ "/biases:0") t)
        let l1 := match st.loss with
                  | some L => SExpr.addN [L, entropy]
                  | none => entropy
        match kreg with
        | some r => SExpr.addN [l1, SExpr.regApp r (layer_name ++ "/weights:0")]
        | none => l1)) := by
  have hl : st.hidden.getLast? = some t := by
    rw [hh]
    exact List.getLast?_concat l
  have hok : StackedAutoencoders.stack_softmax_output_layer st layer_name n_classes kreg =
      .ok { st with
            tvars := st.tvars ++
              [(layer_name ++ "/weights:0", VInit.fromInitializer [w, n_classes]),
               (layer_name ++ "/biases:0", VInit.fromInitializer [n_classes])],
            outputs := some (TExpr.matmulBias (layer_name ++ "/weights:0")
              (layer_name ++ "/biases:0") t),
            loss := some (
              let entropy := SExpr.xentMean yE
                (TExpr.matmulBias (layer_name ++ "/weights:0") (layer_name ++ "/biases:0") t)
              let l1 := match st.loss with
                        | some L => SExpr.addN [L, entropy]
                        | none => entropy
              match kreg with
              | some r => SExpr.addN [l1, SExpr.regApp r (layer_name ++ "/weights:0")]
              | none => l1) } := by
    simp only [StackedAutoencoders.stack_softmax_output_layer, hl, hg, hcols, hy,
      if_true]
    rfl
  refine ⟨⟨_, hok⟩, ?_, ?_, ?_⟩ <;> rw [hok] <;> rfl

/-- Witness for C4 on a concrete one-hidden-layer stack. -/
theorem C4_witness :
    (StackedAutoencoders.stack_softmax_output_layer stackC4 "sm" 3 none).map
        (fun s => s.outputs) =
      .ok (some (TExpr.matmulBias "sm/weights:0" "sm/biases:0"
        (TExpr.dense "s_h0" 2 none (TExpr.placeholder "X" (some 3))))) := by
  have h := C4_softmax_output_layer stackC4 "sm" 3 none []
    (TExpr.dense "s_h0" 2 none (TExpr.placeholder "X" (some 3))) 2
    (TExpr.placeholder "y" none) rfl rfl rfl rfl
  simpa using h.2.2.1

/-! ## C3 -/

/-- State effect of a successful `restore_and_eval`: the checkpoint at the
model path exists, `self.params` is rebuilt from it, and the values come
from `sess.run` under the restored variables. -/
theorem restore_and_eval_state (u : UnitSt) (senv : SemEnv) (X : Mat) (fs : FS)
    (path : String) (varlist : List String) (u' : UnitSt) (rv : List RVal)
    (h : UnitAutoencoder.restore_and_eval u senv X fs path varlist = .ok (u', rv)) :
    ∃ cp, fs path = some cp ∧
      u' = { u with params := some (paramsFromCheckpoint (unitTVarNames u.cfg) cp) } ∧
      sessRun (UnitAutoencoder.runEnv senv X (cpVars (unitTVarNames u.cfg) cp))
        (UnitAutoencoder.fetchesSkip (unitGraph u.cfg) varlist) = .ok rv := by
  simp only [UnitAutoencoder.restore_and_eval, bind, Except.bind] at h
  split at h
  · cases h
  next cp hcp =>
    refine ⟨cp, hcp, ?_⟩
    split at h
    · cases h
    next vals hrun =>
      simp only [pure, Except.pure, Except.ok.injEq, Prod.mk.injEq] at h
      obtain ⟨hu, hv⟩ := h
      subst hv
      exact ⟨hu.symm, hrun⟩

/-- Decompose a successful `sess.run` on a non-empty fetch list. -/
theorem sessRun_cons (env : EvalEnv) (f : Fetchable) (rest : List Fetchable)
    (rv : List RVal) (h : sessRun env (f :: rest) = .ok rv) :
    ∃ v vs, runFetch env f = .ok v ∧ sessRun env rest = .ok vs ∧ rv = v :: vs := by
  simp only [sessRun, bind, Except.bind] at h
  split at h
  · cases h
  next v hv =>
    split at h
    · cases h
    next vs hvs =>
      simp only [pure, Except.pure, Except.ok.injEq] at h
      exact ⟨v, vs, hv, hvs, h.symm⟩

/-- A successful scalar fetch is an `evalS` value. -/
theorem runFetch_scalar (env : EvalEnv) (e : SExpr) (v : RVal)
    (h : runFetch env (.scalarF e) = .ok v) :
    ∃ q, evalS env e = .ok q ∧ v = .scalarV q := by
  simp only [runFetch, bind, Except.bind] at h
  split at h
  · cases h
  next q hq =>
    simp only [pure, Except.pure, Except.ok.injEq] at h
    exact ⟨q, hq, h.symm⟩

/-- A successful tensor fetch is an `evalT` value. -/
theorem runFetch_tensor (env : EvalEnv) (e : TExpr) (v : RVal)
    (h : runFetch env (.tensorF e) = .ok v) :
    ∃ m, evalT env e = .ok m ∧ v = .matV m := by
  simp only [runFetch, bind, Except.bind] at h
  split at h
  · cases h
  next m hm =>
    simp only [pure, Except.pure, Except.ok.injEq] at h
    exact ⟨m, hm, h.symm⟩

/-- Decompose a successful two-fetch `sess.run`. -/
theorem sessRun_pair (env : EvalEnv) (e1 : SExpr) (e2 : TExpr) (rv : List RVal)
    (h : sessRun env [.scalarF e1, .tensorF e2] = .ok rv) :
    ∃ q m, evalS env e1 = .ok q ∧ evalT env e2 = .ok m ∧
      rv = [.scalarV q, .matV m] := by
  obtain ⟨v1, vs1, hf1, hrest, hrv⟩ := sessRun_cons env _ _ rv h
  obtain ⟨v2, vs2, hf2, hnil, hvs1⟩ := sessRun_cons env _ _ vs1 hrest
  obtain ⟨q, hq, hv1⟩ := runFetch_scalar env _ _ hf1
  obtain ⟨m, hm, hv2⟩ := runFetch_tensor env _ _ hf2
  have hvs2 : vs2 = [] := by
    simp only [sessRun, Except.ok.injEq] at hnil
    exact hnil.symm
  subst hv1 hv2 hvs2 hvs1 hrv
  exact ⟨q, m, hq, hm, rfl⟩

/-- A successful `restore_and_eval(X, path, ["reconstruction_loss",
"hidden_outputs"])` whose result destructures as `[loss, m]` computes `m`
as the restored unit's hidden-layer outputs on `X`. -/
theorem restore_and_eval_rh (u : UnitSt) (senv : SemEnv) (X : Mat) (fs : FS)
    (path : String) (u' : UnitSt) (rv : List RVal) (q : ℚ) (m : Mat)
    (h : UnitAutoencoder.restore_and_eval u senv X fs path
      ["reconstruction_loss", "hidden_outputs"] = .ok (u', rv))
    (hd : expectScalarMat rv = .ok (q, m)) :
    ∃ cp, fs path = some cp ∧
      u' = { u with params := some (paramsFromCheckpoint (unitTVarNames u.cfg) cp) } ∧
      unitHiddenOutputs senv u.cfg cp X = .ok m := by
  obtain ⟨cp, hcp, hu, hrun⟩ := restore_and_eval_state u senv X fs path _ u' rv h
  refine ⟨cp, hcp, hu, ?_⟩
  have hfs : UnitAutoencoder.fetchesSkip (unitGraph u.cfg)
      ["reconstruction_loss", "hidden_outputs"] =
      [.scalarF (unitGraph u.cfg).reconstruction_loss,
       .tensorF (unitGraph u.cfg).hidden] := rfl
  rw [hfs] at hrun
  obtain ⟨q', m', _, hm', hrv⟩ := sessRun_pair _ _ _ _ hrun
  subst hrv
  simp only [expectScalarMat, Except.ok.injEq, Prod.mk.injEq] at hd
  obtain ⟨_, hm⟩ := hd
  subst hm
  exact hm'

/-- A successful `fit` replaces `self.params` with the dictionary of the
session's final variable values, preserving the configuration. -/
theorem unitFit_ok_state (u : UnitSt) (fe : FitEnv) (Xt Xv : Mat) (ne : Nat)
    (mp : String) (sbo : Bool) (bs : Option Nat) (cs : Nat) (fs : FS)
    (u' : UnitSt) (fs' : FS) (ms : Int) (asteps : Nat)
    (h : UnitAutoencoder.fit u fe Xt Xv ne mp sbo bs cs fs = .ok (u', fs', ms, asteps)) :
    u' = { u with params := some (paramsFromCheckpoint (unitTVarNames u.cfg) fe.finalVars) } := by
  simp only [UnitAutoencoder.fit] at h
  split at h
  · split at h
    · simp only [Except.ok.injEq, Prod.mk.injEq] at h
      exact h.1.symm
    · cases h
  · cases h

/-- A successful `restore` rebuilds `self.params` from the checkpoint. -/
theorem restore_ok_state (u : UnitSt) (fs : FS) (path : String) (u' : UnitSt)
    (h : UnitAutoencoder.restore u fs path = .ok u') :
    ∃ cp, fs path = some cp ∧
      u' = { u with params := some (paramsFromCheckpoint (unitTVarNames u.cfg) cp) } := by
  simp only [UnitAutoencoder.restore] at h
  split at h
  · cases h
  next cp hcp =>
    simp only [Except.ok.injEq] at h
    exact ⟨cp, hcp, h.symm⟩

/-- The first half of a loop iteration always hands back a unit whose
configuration is the one built for this layer from the current data
width (training, untrained-save and reload branches alike). -/
theorem buildLayerPrep_cfg (b : BuilderCfg) (senv : SemEnv) (fe : FitEnv)
    (pwi : Bool) (ne : Nat) (bs : Option Nat) (cs : Nat) (i : Nat) (fs : FS)
    (Xt Xv : Mat) (fs1 : FS) (u1 : UnitSt)
    (h : buildLayerPrep b senv fe pwi ne bs cs i fs Xt Xv = .ok (fs1, u1)) :
    u1.cfg = mkLayerCfg b i (matWidth Xt) := by
  simp only [buildLayerPrep, bind, Except.bind, pure, Except.pure] at h
  split at h
  · -- no checkpoint on disk
    split at h
    · -- pretrained weight initialization: fit, then the plotting block
      split at h
      · cases h
      next quad hfit =>
        split at h
        · cases h
        next pB hre =>
          split at h
          · cases h
          next recon hrec =>
            split at h
            · split at h
              · cases h
              next hw hhw =>
                simp only [Except.ok.injEq, Prod.mk.injEq] at h
                obtain ⟨-, hu⟩ := h
                obtain ⟨cp, -, hub, -⟩ :=
                  restore_and_eval_state quad.1 senv Xt quad.2.1 (layerModelPath b i)
                    ["outputs"] pB.1 pB.2 hre
                have hq1 := unitFit_ok_state _ fe Xt Xv ne (layerModelPath b i)
                  true bs cs fs quad.1 quad.2.1 quad.2.2.1 quad.2.2.2 hfit
                rw [← hu, hub, hq1]
                rfl
            · cases h
    · -- untrained initialization: save, then the plotting block
      split at h
      · cases h
      next pB hre =>
        split at h
        · cases h
        next recon hrec =>
          split at h
          · split at h
            · cases h
            next hw hhw =>
              simp only [Except.ok.injEq, Prod.mk.injEq] at h
              obtain ⟨-, hu⟩ := h
              obtain ⟨cp, -, hub, -⟩ :=
                restore_and_eval_state _ senv Xt _ (layerModelPath b i)
                  ["outputs"] pB.1 pB.2 hre
              rw [← hu, hub]
              rfl
          · cases h
  · -- checkpoint exists: reload
    split at h
    · cases h
    next uR huR =>
      simp only [Except.ok.injEq, Prod.mk.injEq] at h
      obtain ⟨cp, -, hu⟩ := restore_ok_state _ fs (layerModelPath b i) uR huR
      rw [← h.2, hu]
      rfl

/-- The tail of a loop iteration restores the unit from its model file and
computes the next layer's training and validation data as that unit's
hidden-layer outputs. -/
theorem buildLayerTail_spec (senv : SemEnv) (u1 : UnitSt) (fs1 : FS)
    (path : String) (Xt Xv : Mat) (lo : LayerOut) (Xt' Xv' : Mat)
    (h : buildLayerTail senv u1 fs1 path Xt Xv = .ok (lo, Xt', Xv')) :
    lo.unit.cfg = u1.cfg ∧
    lo.unit.params.isSome ∧
    fs1 path = some lo.cp ∧
    unitHiddenOutputs senv u1.cfg lo.cp Xt = .ok Xt' ∧
    unitHiddenOutputs senv u1.cfg lo.cp Xv = .ok Xv' := by
  simp only [buildLayerTail, bind, Except.bind, pure, Except.pure] at h
  split at h
  · cases h
  next p2 hre1 =>
    split at h
    · cases h
    next qm1 hd1 =>
      split at h
      · cases h
      next p3 hre2 =>
        split at h
        · cases h
        next qm2 hd2 =>
          split at h
          · cases h
          next cp hcp =>
            simp only [Except.ok.injEq, Prod.mk.injEq] at h
            obtain ⟨hlo, ht', hv'⟩ := h
            obtain ⟨cp1, hcp1, hu2, hh1⟩ :=
              restore_and_eval_rh u1 senv Xt fs1 path p2.1 p2.2 qm1.1 qm1.2 hre1 hd1
            obtain ⟨cp2, hcp2, hu3, hh2⟩ :=
              restore_and_eval_rh p2.1 senv Xv fs1 path p3.1 p3.2 qm2.1 qm2.2 hre2 hd2
            have hcpe1 : cp1 = cp := by
              rw [hcp1] at hcp
              exact Option.some.inj hcp
            have hcpe2 : cp2 = cp := by
              rw [hcp2] at hcp
              exact Option.some.inj hcp
            have hcfg2 : p2.1.cfg = u1.cfg := by rw [hu2]
            subst hlo ht' hv' hcpe1 hcpe2
            refine ⟨?_, ?_, hcp, hh1, ?_⟩
            · simp only [LayerOut.cp, hu3, hcfg2]
            · simp only [LayerOut.cp, hu3]
              rfl
            · rw [← hcfg2]
              exact hh2

/-- Specification of one full loop iteration: the layer's unit carries the
configuration built from the current data width, its params are set, and
the next data stages are its hidden-layer outputs under the checkpoint at
its model path. -/
theorem buildLayer_spec (b : BuilderCfg) (senv : SemEnv) (fe : FitEnv)
    (pwi : Bool) (ne : Nat) (bs : Option Nat) (cs : Nat) (i : Nat) (fs : FS)
    (Xt Xv : Mat) (fs' : FS) (lo : LayerOut) (Xt' Xv' : Mat)
    (h : buildLayer b senv fe pwi ne bs cs i fs Xt Xv = .ok (fs', lo, Xt', Xv')) :
    lo.unit.cfg = mkLayerCfg b i (matWidth Xt) ∧
    lo.unit.params.isSome ∧
    unitHiddenOutputs senv lo.unit.cfg lo.cp Xt = .ok Xt' ∧
    unitHiddenOutputs senv lo.unit.cfg lo.cp Xv = .ok Xv' := by
  simp only [buildLayer, bind, Except.bind, pure, Except.pure] at h
  split at h
  · cases h
  next p1 hprep =>
    split at h
    · cases h
    next trip htail =>
      simp only [Except.ok.injEq, Prod.mk.injEq] at h
      obtain ⟨-, hlo, ht', hv'⟩ := h
      have hcfg := buildLayerPrep_cfg b senv fe pwi ne bs cs i fs Xt Xv p1.1 p1.2 hprep
      obtain ⟨hc, hps, -, hh1, hh2⟩ :=
        buildLayerTail_spec senv p1.2 p1.1 (layerModelPath b i) Xt Xv
          trip.1 trip.2.1 trip.2.2 htail
      subst hlo ht' hv'
      rw [← hc] at hh1 hh2
      exact ⟨hc.trans hcfg, hps, hh1, hh2⟩

/-- Induction along the pretraining loop: every successfully built layer
`j` uses the configuration derived from the width of its stage's data, and
each next stage is the hidden-layer outputs of the layer's trained unit on
the previous stage. -/
theorem buildFrom_spec (b : BuilderCfg) (senv : SemEnv) (feOf : Nat → FitEnv)
    (pwi : Bool) (ne : Nat) (bs : Option Nat) (cs : Nat) :
    ∀ (k i : Nat) (fs : FS) (Xt Xv : Mat) (fs' : FS) (los : List LayerOut)
      (ts vs : List Mat),
      buildFrom b senv feOf pwi ne bs cs k i fs Xt Xv = .ok (fs', los, ts, vs) →
      los.length = k ∧ ts.length = k + 1 ∧ vs.length = k + 1 ∧
      ts.getD 0 [] = Xt ∧ vs.getD 0 [] = Xv ∧
      ∀ j, j < k →
        (los.getD j LayerOut.default0).unit.cfg =
          mkLayerCfg b (i + j) (matWidth (ts.getD j [])) ∧
        (los.getD j LayerOut.default0).unit.params.isSome ∧
        unitHiddenOutputs senv (los.getD j LayerOut.default0).unit.cfg
          (los.getD j LayerOut.default0).cp (ts.getD j []) = .ok (ts.getD (j+1) []) ∧
        unitHiddenOutputs senv (los.getD j LayerOut.default0).unit.cfg
          (los.getD j LayerOut.default0).cp (vs.getD j []) = .ok (vs.getD (j+1) []) := by
  intro k
  induction k with
  | zero =>
    intro i fs Xt Xv fs' los ts vs h
    simp only [buildFrom, Except.ok.injEq, Prod.mk.injEq] at h
    obtain ⟨-, hlos, hts, hvs⟩ := h
    subst hlos hts hvs
    refine ⟨rfl, rfl, rfl, rfl, rfl, ?_⟩
    intro j hj
    exact absurd hj (Nat.not_lt_zero j)
  | succ k ih =>
    intro i fs Xt Xv fs' los ts vs h
    simp only [buildFrom, bind, Except.bind, pure, Except.pure] at h
    split at h
    · cases h
    next q1 hlayer =>
      split at h
      · cases h
      next q2 hrest =>
        simp only [Except.ok.injEq, Prod.mk.injEq] at h
        obtain ⟨-, hlos, hts, hvs⟩ := h
        obtain ⟨hcfg, hps, hh1, hh2⟩ :=
          buildLayer_spec b senv (feOf i) pwi ne bs cs i fs Xt Xv
            q1.1 q1.2.1 q1.2.2.1 q1.2.2.2 hlayer
        obtain ⟨hl, ht, hv, hth, hvh, hj⟩ :=
          ih (i + 1) q1.1 q1.2.2.1 q1.2.2.2 q2.1 q2.2.1 q2.2.2.1 q2.2.2.2 hrest
        subst hlos hts hvs
        refine ⟨by simp [hl], by simp [ht], by simp [hv], rfl, rfl, ?_⟩
        intro j hjlt
        cases j with
        | zero =>
          simp only [List.getD_cons_zero, List.getD_cons_succ]
          rw [hth, hvh]
          refine ⟨by simpa using hcfg, hps, hh1, hh2⟩
        | succ j' =>
          have hprev := hj j' (by omega)
          simp only [List.getD_cons_succ]
          have hidx : i + (j' + 1) = i + 1 + j' := by omega
          rw [hidx]
          exact hprev

/-- The unit built for a layer always takes `n_inputs` from the width it
was given. -/
theorem mkLayerCfg_n_inputs (b : BuilderCfg) (i w : Nat) :
    (mkLayerCfg b i w).n_inputs = w := by
  simp only [mkLayerCfg]
  split <;> rfl

/-- C3: `build_pretrained_stack` performs layer-wise pretraining.  On every
successful run, for every hidden layer index `i` the unit of layer `i` is
constructed with `n_inputs` equal to the feature width of the data stage of
layer `i`; that unit has been trained or reloaded (its params are set and a
checkpoint for it exists, recorded as `lo.cp`) before layer `i+1`'s data
exists; and the training and validation data for layer `i+1` are the
hidden-layer outputs of the trained unit of layer `i` (evaluated under its
saved checkpoint) on the data used for layer `i`. -/
theorem C3_layerwise_pretraining (b : BuilderCfg) (senv : SemEnv)
    (feOf : Nat → FitEnv) (pwi : Bool) (ne : Nat) (bs : Option Nat) (cs : Nat)
    (fs : FS) (X_train X_valid : Mat) (fs' : FS) (los : List LayerOut)
    (ts vs : List Mat)
    (hwf : b.wf)
    (hrun : buildPretrainedStackUnits b senv feOf pwi ne bs cs fs X_train X_valid =
      .ok (fs', los, ts, vs)) :
    los.length = b.nHiddenLayers ∧
    ts.length = b.nHiddenLayers + 1 ∧ vs.length = b.nHiddenLayers + 1 ∧
    ts.getD 0 [] = X_train ∧ vs.getD 0 [] = X_valid ∧
    ∀ i, i < b.nHiddenLayers →
      (los.getD i LayerOut.default0).unit.cfg =
        mkLayerCfg b i (matWidth (ts.getD i [])) ∧
      (los.getD i LayerOut.default0).unit.cfg.n_inputs = matWidth (ts.getD i []) ∧
      (los.getD i LayerOut.default0).unit.params.isSome ∧
      unitHiddenOutputs senv (los.getD i LayerOut.default0).unit.cfg
        (los.getD i LayerOut.default0).cp (ts.getD i []) = .ok (ts.getD (i+1) []) ∧
      unitHiddenOutputs senv (los.getD i LayerOut.default0).unit.cfg
        (los.getD i LayerOut.default0).cp (vs.getD i []) = .ok (vs.getD (i+1) []) := by
  simp only [buildPretrainedStackUnits] at hrun
  split at hrun
  · have hspec := buildFrom_spec b senv feOf pwi ne bs cs b.nHiddenLayers 0 fs
      X_train X_valid fs' los ts vs hrun
    obtain ⟨hl, ht, hv, hth, hvh, hjs⟩ := hspec
    refine ⟨hl, ht, hv, hth, hvh, ?_⟩
    intro i hi
    obtain ⟨hcfg, hps, hh1, hh2⟩ := hjs i hi
    rw [Nat.zero_add] at hcfg
    refine ⟨hcfg, ?_, hps, hh1, hh2⟩
    rw [hcfg]
    exact mkLayerCfg_n_inputs b i _
  · cases hrun

/-- Witness for C3: a one-layer builder whose checkpoint already exists on
disk (reload branch); the hidden-layer outputs of the reloaded unit on the
stage-0 data are exactly the stage-1 data. -/
theorem C3_witness :
    unitHiddenOutputs senvA (mkLayerCfg bA 0 1) cpB [[1]] = .ok [[1]] ∧
    (mkLayerCfg bA 0 1).n_inputs = matWidth ([[1]] : Mat) := by
  have h := C3_layerwise_pretraining bA senvA (fun _ => feA) true 1 (some 1) 1
    fsB [[1]] [[1]] fsB [loB] [[[1]], [[1]]] [[[1]], [[1]]]
    ⟨rfl, rfl, rfl, rfl, rfl, Nat.one_pos⟩ rfl
  have h0 := h.2.2.2.2.2 0 (by decide)
  exact ⟨h0.2.2.2.1, h0.2.1⟩
